import Mathlib

/-! Irrigation pump controller (`main/pump_node.c`).

A shallow embedding of the level-sensing and pump-control engine of
`pump_node.c`, and theorems about it.

Conventions of the embedding.

* `uint32_t` and `uint8_t` values are natural numbers; every operation that
  can leave the range of its type is followed by an explicit reduction
  modulo `2^32` or `2^8`.
* The static `s_pump` is the field `s_pump` of `Machine`; the calls of
  `gpio_set_level` made by `pump_node_init` and by `pump_step` itself are
  appended, in order, to the field `gpio_log`. `measure_voltage` is a function
  of the ADC results only: its driving of an electrode pin is not recorded.
* A `float` voltage is `Option ℚ`: `none` is the NaN returned by
  `measure_voltage` after a failed ADC read, `some u` is the exact rational
  value of the float. `measure_voltage` rounds every float operation to
  binary32 (`f32.round`).
* The classification comes at two levels. `classify_voltage`,
  `is_zero_voltage` and `get_water_state` read the thresholds of lines 26, 27
  and 36 as the decimal numbers 1.10, 1.90 and 0.02. `classify_voltage_f32`,
  `is_zero_voltage_f32` and `get_water_state_f32` compare with the binary32
  values of the literals `1.10f`, `1.90f` and `0.02f`, as the compiled code
  does; the two levels differ only on voltages between a decimal threshold
  and its binary32 value.
* Logging (`ESP_LOGx`) has no effect on the state and is left out.
-/

namespace PumpNode

/-! ## Constants (lines 22-37) -/

/-- Line 22: period of the task, in milliseconds. -/
def CHECK_PERIOD_MS : Nat := 1000
/-- Line 23: the pump runs for 3 s at most. -/
def MAX_PUMP_TIME_MS : Nat := 3000
/-- Line 24: one minute of rest between two waterings. -/
def MIN_PAUSE_MS : Nat := 60000
/-- Line 26: at or below this voltage a direction is dry. -/
def DRY_VOLTAGE : ℚ := 110 / 100
/-- Line 27: at or above this voltage a direction is wet. -/
def WET_VOLTAGE : ℚ := 190 / 100
/-- Line 29: consecutive dry cycles that confirm "not full". -/
def DRY_CONFIRM_CYCLES : Nat := 3
/-- Line 30: consecutive wet cycles that confirm "full". -/
def WET_CONFIRM_CYCLES : Nat := 2
/-- Line 36: at or below this voltage a direction reads "really 0". -/
def ZERO_VOLTAGE : ℚ := 2 / 100
/-- Line 37: consecutive all-zero cycles that confirm a sensor fault. -/
def ZERO_CONFIRM_CYCLES : Nat := 3

/-- The values of `esp_err_t` that `pump_node_init` returns. -/
def ESP_OK : Int := 0
/-- The value of `ESP_ERR_INVALID_ARG` in `esp_err.h`. -/
def ESP_ERR_INVALID_ARG : Int := 258

/-- Number of values of a `uint32_t`. -/
def U32 : Nat := 4294967296
/-- Number of values of a `uint8_t`. -/
def U8 : Nat := 256

/-- Subtraction of two `uint32_t` values, as C computes it: modulo `2^32`. -/
def sub32 (a b : Nat) : Nat := (a + (U32 - b % U32)) % U32

/-- The increment `x++` of a `uint8_t`: modulo `2^8`. -/
def inc8 (x : Nat) : Nat := (x + 1) % U8

/-! ## Types (lines 48-75, `pump_node.h` lines 12-16) -/

/-- Lines 48-52: classification of one direction. -/
inductive water_state_t where
  | WATER_DRY
  | WATER_WET
  | WATER_UNKNOWN
  deriving DecidableEq, Repr

/-- The three pins of `pump_node.h`, lines 12-16. -/
structure pump_node_pins_t where
  level_a_gpio : Int
  level_b_gpio : Int
  pump_gpio : Int
  deriving DecidableEq, Repr

/-- Lines 54-75: the controller state. -/
structure pump_ctx_t where
  level_a_gpio : Int
  level_b_gpio : Int
  pump_gpio : Int
  inited : Bool
  pump_on : Bool
  pump_start_ms : Nat
  last_water_ms : Nat
  stored_is_full : Bool
  dry_streak : Nat
  wet_streak : Nat
  zero_streak : Nat
  last_level_percent : Int
  deriving DecidableEq, Repr

/-- The state the program works on: the static `s_pump` and the sequence of
`gpio_set_level (pin, level)` calls made so far by `pump_node_init` and by
`pump_step` itself. -/
structure Machine where
  s_pump : pump_ctx_t
  gpio_log : List (Int × Nat)
  deriving DecidableEq, Repr

/-- The three out-parameters of `get_water_state`. -/
structure water_flags where
  any_water : Bool
  all_dry : Bool
  all_zero : Bool
  deriving DecidableEq, Repr

/-! ## Time and classification (lines 84-101) -/

/-- Lines 84-87: `(uint32_t)(esp_timer_get_time() / 1000ULL)`, with the value
of `esp_timer_get_time()` (microseconds since boot) as parameter. -/
def now_ms (t_us : Nat) : Nat := (t_us / 1000) % U32

/-! ### Binary32 arithmetic -/

/-- A finite, non-negative binary32 value: `m * 2^e`. -/
structure f32 where
  m : Nat
  e : Int
  deriving DecidableEq, Repr

/-- The rational value of a binary32 value. -/
def f32.val (x : f32) : ℚ := (x.m : ℚ) * (2 : ℚ) ^ x.e

/-- The integer part of `(n / d) / 2^t`. -/
def f32.quot (n d : Nat) (t : Int) : Nat :=
  if 0 ≤ t then n / (d * 2 ^ t.toNat) else n * 2 ^ (-t).toNat / d

/-- The exponent of the grid on which `n / d` is rounded: the least `t'` from
`t` upwards, within `fuel` steps, for which the integer part of
`(n / d) / 2^t'` fits in 24 bits. -/
def f32.grid (fuel : Nat) (n d : Nat) (t : Int) : Int :=
  match fuel with
  | 0 => t
  | fuel + 1 => if f32.quot n d t < 2 ^ 24 then t else f32.grid fuel n d (t + 1)

/-- The binary32 value nearest to `(n / d) * 2^s`, ties to even: a multiple
`m * 2^t` with `m ≤ 2^24` of the finest grid `2^t`, `t ≥ -149`, on which the
integer part of the quotient fits in 24 bits. The search covers every finite
binary32 exponent (`t ≤ 104`); the overflow to infinity is not modelled, the
values of `measure_voltage` stay far below it. -/
def f32.round (n d : Nat) (s : Int) : f32 :=
  let N : Nat := if 0 ≤ s then n * 2 ^ s.toNat else n
  let D : Nat := if 0 ≤ s then d else d * 2 ^ (-s).toNat
  let t : Int := f32.grid 254 N D (-149)
  let N1 : Nat := if 0 ≤ t then N else N * 2 ^ (-t).toNat
  let D1 : Nat := if 0 ≤ t then D * 2 ^ t.toNat else D
  let k : Nat := N1 / D1
  let r : Nat := N1 % D1
  if D1 < 2 * r ∨ (2 * r = D1 ∧ k % 2 = 1) then { m := k + 1, e := t }
  else { m := k, e := t }

/-- The conversion `(float) n` of a non-negative integer. -/
def f32.of_nat (n : Nat) : f32 := f32.round n 1 0

/-- The float quotient `x / (float) d`, for `d` below `2^24`. -/
def f32.div_nat (x : f32) (d : Nat) : f32 := f32.round x.m d x.e

/-- The float product `x * y`. -/
def f32.mul (x y : f32) : f32 := f32.round (x.m * y.m) 1 (x.e + y.e)

/-- Line 32: the literal `3.3f`, whose binary32 value is `13841203 / 2^22`. -/
def ADC_VREF : f32 := { m := 13841203, e := -22 }
/-- Line 33: the literal `4095.0f`, an exact binary32 value. -/
def ADC_MAX_RAW : Nat := 4095

/-- Line 26: the binary32 value of the literal `1.10f`, just above 1.10. -/
def DRY_VOLTAGE_F32 : ℚ := 9227469 / 8388608
/-- Line 27: the binary32 value of the literal `1.90f`, just below 1.90. -/
def WET_VOLTAGE_F32 : ℚ := 15938355 / 8388608
/-- Line 36: the binary32 value of the literal `0.02f`, just below 0.02. -/
def ZERO_VOLTAGE_F32 : ℚ := 5368709 / 268435456

/-- Lines 144-145 on the absolute value of `sum`:
`avg_raw = (float)sum / (float)samples` and
`voltage = (avg_raw / ADC_MAX_RAW) * ADC_VREF`, each of the four float
operations (conversion, two divisions, product) rounded to binary32. -/
def measured_magnitude (sum_abs : Nat) : f32 :=
  let avg_raw := f32.div_nat (f32.of_nat sum_abs) 10
  f32.mul (f32.div_nat avg_raw ADC_MAX_RAW) ADC_VREF

/-- Lines 111-147, as a function of the results of the ten calls of
`adc_oneshot_read` at line 131: `adc_read i` is `none` when the call number
`i` does not return `ESP_OK`, and otherwise the raw code it stores. The loop
stops at the first failed call and the function returns NaN (line 135);
otherwise it returns the float computed at lines 144-145, whose sign is the
sign of `sum`. -/
def measure_voltage (adc_read : Nat → Option Int) : Option ℚ :=
  ((List.range 10).foldlM
      (fun (sum : Int) (i : Nat) => (adc_read i).map (fun raw => sum + raw)) 0).map
    (fun sum =>
      if sum < 0 then -(measured_magnitude sum.natAbs).val
      else (measured_magnitude sum.natAbs).val)

/-- Lines 89-101, with the thresholds read as the decimal numbers 1.90 and
1.10. -/
def classify_voltage (u : Option ℚ) : water_state_t :=
  match u with
  | none => water_state_t.WATER_UNKNOWN
  | some v =>
    if v ≥ WET_VOLTAGE then water_state_t.WATER_WET
    else if v ≤ DRY_VOLTAGE then water_state_t.WATER_DRY
    else water_state_t.WATER_UNKNOWN

/-- Line 168 and 169: `!isnan(u) && (u <= ZERO_VOLTAGE)`, with the threshold
read as the decimal number 0.02. -/
def is_zero_voltage (u : Option ℚ) : Bool :=
  match u with
  | none => false
  | some v => decide (v ≤ ZERO_VOLTAGE)

/-- Lines 89-101 as compiled: the float `u` is compared with the binary32
values of the literals `1.90f` and `1.10f`. -/
def classify_voltage_f32 (u : Option ℚ) : water_state_t :=
  match u with
  | none => water_state_t.WATER_UNKNOWN
  | some v =>
    if v ≥ WET_VOLTAGE_F32 then water_state_t.WATER_WET
    else if v ≤ DRY_VOLTAGE_F32 then water_state_t.WATER_DRY
    else water_state_t.WATER_UNKNOWN

/-- Line 168 and 169 as compiled: `!isnan(u) && (u <= ZERO_VOLTAGE)` with the
binary32 value of the literal `0.02f`. -/
def is_zero_voltage_f32 (u : Option ℚ) : Bool :=
  match u with
  | none => false
  | some v => decide (v ≤ ZERO_VOLTAGE_F32)

/-- Lines 155-173 as compiled, with the two values returned by
`measure_voltage` (lines 157-158) as parameters. -/
def get_water_state_f32 (u_ab u_ba : Option ℚ) : water_flags :=
  let s_ab := classify_voltage_f32 u_ab
  let s_ba := classify_voltage_f32 u_ba
  let water_ab := decide (s_ab = water_state_t.WATER_WET)
  let water_ba := decide (s_ba = water_state_t.WATER_WET)
  let dry_ab := decide (s_ab = water_state_t.WATER_DRY)
  let dry_ba := decide (s_ba = water_state_t.WATER_DRY)
  let zero_ab := is_zero_voltage_f32 u_ab
  let zero_ba := is_zero_voltage_f32 u_ba
  { any_water := water_ab || water_ba
    all_dry := dry_ab && dry_ba
    all_zero := zero_ab && zero_ba }

/-- Lines 155-173, with the two values returned by `measure_voltage` (lines
157-158) as parameters and the thresholds read as decimal numbers. -/
def get_water_state (u_ab u_ba : Option ℚ) : water_flags :=
  let s_ab := classify_voltage u_ab
  let s_ba := classify_voltage u_ba
  let water_ab := decide (s_ab = water_state_t.WATER_WET)
  let water_ba := decide (s_ba = water_state_t.WATER_WET)
  let dry_ab := decide (s_ab = water_state_t.WATER_DRY)
  let dry_ba := decide (s_ba = water_state_t.WATER_DRY)
  let zero_ab := is_zero_voltage u_ab
  let zero_ba := is_zero_voltage u_ba
  { any_water := water_ab || water_ba
    all_dry := dry_ab && dry_ba
    all_zero := zero_ab && zero_ba }

/-! ## One step of the watering logic (lines 192-300) -/

/-- Lines 201-206: the fault counter, saturating at 255. -/
def update_zero_streak (s : pump_ctx_t) (all_zero : Bool) : pump_ctx_t :=
  if all_zero then
    if s.zero_streak < 255 then { s with zero_streak := s.zero_streak + 1 } else s
  else
    { s with zero_streak := 0 }

/-- Lines 226-236: the level streaks. -/
def update_level_streaks (s : pump_ctx_t) (any_water all_dry : Bool) : pump_ctx_t :=
  if any_water then
    { s with wet_streak := inc8 s.wet_streak, dry_streak := 0 }
  else if all_dry then
    { s with dry_streak := inc8 s.dry_streak, wet_streak := 0 }
  else
    { s with wet_streak := 0, dry_streak := 0 }

/-- Lines 238-251: hysteresis. The second component is the local `is_full`,
which starts as `stored_is_full` (line 238) and is assigned next to it. -/
def update_hysteresis (s : pump_ctx_t) : pump_ctx_t × Bool :=
  let p0 : pump_ctx_t × Bool := (s, s.stored_is_full)
  let p1 : pump_ctx_t × Bool :=
    if p0.1.wet_streak ≥ WET_CONFIRM_CYCLES then
      ({ p0.1 with stored_is_full := true, wet_streak := WET_CONFIRM_CYCLES }, true)
    else p0
  let p2 : pump_ctx_t × Bool :=
    if p1.1.dry_streak ≥ DRY_CONFIRM_CYCLES then
      ({ p1.1 with stored_is_full := false, dry_streak := DRY_CONFIRM_CYCLES }, false)
    else p1
  ({ p2.1 with last_level_percent := if p2.2 then 100 else 0 }, p2.2)

/-- Lines 262-299: the pump decision, `is_full` being the local of that
name. -/
def decide_pump (m : Machine) (now : Nat) (is_full : Bool) : Machine :=
  let s := m.s_pump
  if s.pump_on then
    if sub32 now s.pump_start_ms > MAX_PUMP_TIME_MS then
      { s_pump := { s with pump_on := false, last_water_ms := now }
        gpio_log := m.gpio_log ++ [(s.pump_gpio, 0)] }
    else if is_full then
      { s_pump := { s with pump_on := false, last_water_ms := now }
        gpio_log := m.gpio_log ++ [(s.pump_gpio, 0)] }
    else m
  else if sub32 now s.last_water_ms < MIN_PAUSE_MS then
    m
  else if !is_full then
    { s_pump := { s with pump_on := true, pump_start_ms := now }
      gpio_log := m.gpio_log ++ [(s.pump_gpio, 1)] }
  else m

/-- Lines 201-299 of `pump_step`; `now` is the value of `now_ms()` (line 194)
and the three booleans are those filled by `get_water_state` (line 199). -/
def pump_step (m : Machine) (now : Nat) (any_water all_dry all_zero : Bool) : Machine :=
  let s0 := update_zero_streak m.s_pump all_zero
  let sensor_fault_zero := decide (s0.zero_streak ≥ ZERO_CONFIRM_CYCLES)
  if sensor_fault_zero then
    if s0.pump_on then
      { s_pump := { s0 with pump_on := false, last_water_ms := now }
        gpio_log := m.gpio_log ++ [(s0.pump_gpio, 0)] }
    else
      { m with s_pump := s0 }
  else
    let h := update_hysteresis (update_level_streaks s0 any_water all_dry)
    decide_pump { m with s_pump := h.1 } now h.2

/-- The whole of `pump_step` (lines 192-300): the clock is read, both
directions are measured, and the logic runs on the result. -/
def pump_step_measured (m : Machine) (t_us : Nat) (u_ab u_ba : Option ℚ) : Machine :=
  let w := get_water_state u_ab u_ba
  pump_step m (now_ms t_us) w.any_water w.all_dry w.all_zero

/-! ## Initialisation and queries (lines 319-414) -/

/-- Lines 319-383. `pins` is `none` for a NULL pointer; the four booleans say
whether `gpio_config`, `adc_oneshot_new_unit` and the two calls of
`adc_oneshot_config_channel` returned `ESP_OK`; `t_us` is the value of
`esp_timer_get_time()` read at line 359. The result is `none` when an
`ESP_ERROR_CHECK` aborts, and otherwise the new state with the returned
`esp_err_t`. -/
def pump_node_init (m : Machine) (pins : Option pump_node_pins_t)
    (gpio_ok unit_ok chan_a_ok chan_b_ok : Bool) (t_us : Nat) : Option (Machine × Int) :=
  if m.s_pump.inited then
    some (m, ESP_OK)
  else
    match pins with
    | none => some (m, ESP_ERR_INVALID_ARG)
    | some p =>
      if !gpio_ok then none
      else if !unit_ok then none
      else if !chan_a_ok then none
      else if !chan_b_ok then none
      else
        let now := now_ms t_us
        some
          ({ s_pump :=
               { level_a_gpio := p.level_a_gpio
                 level_b_gpio := p.level_b_gpio
                 pump_gpio := p.pump_gpio
                 inited := true
                 pump_on := false
                 pump_start_ms := 0
                 last_water_ms := sub32 now MIN_PAUSE_MS
                 stored_is_full := false
                 dry_streak := DRY_CONFIRM_CYCLES
                 wet_streak := 0
                 zero_streak := 0
                 last_level_percent := 0 }
             gpio_log :=
               m.gpio_log ++ [(p.pump_gpio, 0), (p.pump_gpio, 1), (p.pump_gpio, 0)] },
           ESP_OK)

/-- Lines 406-409. -/
def pump_node_get_last_level_percent (m : Machine) : Int :=
  m.s_pump.last_level_percent

/-- Lines 411-414. -/
def pump_node_is_pump_on (m : Machine) : Bool :=
  m.s_pump.pump_on

/-! ## Executions -/

/-- What one call of `pump_step` reads from its environment: the value of
`esp_timer_get_time()` and the three booleans filled by `get_water_state`. -/
structure Cycle where
  t_us : Nat
  any_water : Bool
  all_dry : Bool
  all_zero : Bool
  deriving DecidableEq, Repr

/-- The time of a cycle in milliseconds since boot, before the reduction to
32 bits. -/
def Cycle.t_ms (c : Cycle) : Nat := c.t_us / 1000

/-- One iteration of the loop of `pump_node_task` (lines 306-313). -/
def cycle_step (m : Machine) (c : Cycle) : Machine :=
  pump_step m (now_ms c.t_us) c.any_water c.all_dry c.all_zero

/-- Consecutive iterations of the loop of `pump_node_task`. -/
def run (m : Machine) (cs : List Cycle) : Machine :=
  cs.foldl cycle_step m

/-- The states of the running program: the state left by a first successful
`pump_node_init`, followed by any number of `pump_step` calls. -/
inductive Reachable : Machine → Prop where
  | init (m0 : Machine) (pins : pump_node_pins_t) (t_us : Nat) (m : Machine) :
      m0.s_pump.inited = false →
      pump_node_init m0 (some pins) true true true true t_us = some (m, ESP_OK) →
      Reachable m
  | step (m : Machine) (c : Cycle) : Reachable m → Reachable (cycle_step m c)

/-- While the pump is off, `last_water_ms` holds a time between `lo` and
`hi`, reduced to 32 bits. -/
def RestStamp (m : Machine) (lo hi : Nat) : Prop :=
  m.s_pump.pump_on = false →
    ∃ w : Nat, lo ≤ w ∧ w ≤ hi ∧ m.s_pump.last_water_ms = w % U32

/-! ## Sample inputs -/

/-- The static storage at boot: every field of `s_pump` is zero and no pin
has been written. -/
def boot_machine : Machine :=
  { s_pump :=
      { level_a_gpio := 0
        level_b_gpio := 0
        pump_gpio := 0
        inited := false
        pump_on := false
        pump_start_ms := 0
        last_water_ms := 0
        stored_is_full := false
        dry_streak := 0
        wet_streak := 0
        zero_streak := 0
        last_level_percent := 0 }
    gpio_log := [] }

/-- The pins of the comments of `pump_node.h`: GPIO32, GPIO33, GPIO26. -/
def sample_pins : pump_node_pins_t :=
  { level_a_gpio := 32, level_b_gpio := 33, pump_gpio := 26 }

/-- An initialised controller with the given pump and level fields and an
empty log of pin writes. -/
def sample_machine (pump_on : Bool) (pump_start_ms last_water_ms : Nat)
    (stored_is_full : Bool) (dry_streak wet_streak zero_streak : Nat) : Machine :=
  { s_pump :=
      { level_a_gpio := 32
        level_b_gpio := 33
        pump_gpio := 26
        inited := true
        pump_on := pump_on
        pump_start_ms := pump_start_ms
        last_water_ms := last_water_ms
        stored_is_full := stored_is_full
        dry_streak := dry_streak
        wet_streak := wet_streak
        zero_streak := zero_streak
        last_level_percent := if stored_is_full then 100 else 0 }
    gpio_log := [] }

/-- A cycle at `t_us` microseconds with the given reading. -/
def sample_cycle (t_us : Nat) (any_water all_dry all_zero : Bool) : Cycle :=
  { t_us := t_us, any_water := any_water, all_dry := all_dry, all_zero := all_zero }

/-! ## Basic facts -/

theorem sub32_self (a : Nat) : sub32 a a = 0 := by
  unfold sub32 U32
  omega

theorem sub32_of_le (a b : Nat) (h : b ≤ a) (hlt : a - b < U32) :
    sub32 (a % U32) (b % U32) = a - b := by
  unfold sub32 U32 at *
  omega

theorem now_ms_eq (t_us : Nat) : now_ms t_us = (t_us / 1000) % U32 := rfl

/-! ### The fault counter -/

theorem update_zero_streak_frame (s : pump_ctx_t) (az : Bool) :
    (update_zero_streak s az).pump_on = s.pump_on
      ∧ (update_zero_streak s az).pump_start_ms = s.pump_start_ms
      ∧ (update_zero_streak s az).last_water_ms = s.last_water_ms
      ∧ (update_zero_streak s az).stored_is_full = s.stored_is_full
      ∧ (update_zero_streak s az).dry_streak = s.dry_streak
      ∧ (update_zero_streak s az).wet_streak = s.wet_streak
      ∧ (update_zero_streak s az).last_level_percent = s.last_level_percent
      ∧ (update_zero_streak s az).pump_gpio = s.pump_gpio
      ∧ (update_zero_streak s az).inited = s.inited := by
  unfold update_zero_streak
  split_ifs <;> simp

theorem update_zero_streak_val (s : pump_ctx_t) (az : Bool) :
    (update_zero_streak s az).zero_streak
      = if az then (if s.zero_streak < 255 then s.zero_streak + 1 else s.zero_streak)
        else 0 := by
  unfold update_zero_streak
  split_ifs <;> rfl

/-- Lines 201-206 assign `zero_streak` only. -/
theorem update_zero_streak_eq (s : pump_ctx_t) (az : Bool) :
    update_zero_streak s az
      = { s with zero_streak := (update_zero_streak s az).zero_streak } := by
  unfold update_zero_streak
  split_ifs <;> rfl

theorem ctx_off_eq (s : pump_ctx_t) (z : Nat) (h : s.pump_on = false) :
    ({ s with zero_streak := z } : pump_ctx_t)
      = { s with zero_streak := z, pump_on := false, last_water_ms := s.last_water_ms } := by
  cases s
  simp only at h
  subst h
  rfl

/-! ### The level streaks and the hysteresis -/

theorem update_level_streaks_frame (s : pump_ctx_t) (aw ad : Bool) :
    (update_level_streaks s aw ad).pump_on = s.pump_on
      ∧ (update_level_streaks s aw ad).pump_start_ms = s.pump_start_ms
      ∧ (update_level_streaks s aw ad).last_water_ms = s.last_water_ms
      ∧ (update_level_streaks s aw ad).stored_is_full = s.stored_is_full
      ∧ (update_level_streaks s aw ad).zero_streak = s.zero_streak
      ∧ (update_level_streaks s aw ad).last_level_percent = s.last_level_percent
      ∧ (update_level_streaks s aw ad).pump_gpio = s.pump_gpio
      ∧ (update_level_streaks s aw ad).inited = s.inited := by
  unfold update_level_streaks
  split_ifs <;> simp

theorem update_level_streaks_wet (s : pump_ctx_t) (aw ad : Bool) :
    (update_level_streaks s aw ad).wet_streak = if aw then inc8 s.wet_streak else 0 := by
  unfold update_level_streaks
  split_ifs <;> rfl

theorem update_level_streaks_dry (s : pump_ctx_t) (aw ad : Bool) :
    (update_level_streaks s aw ad).dry_streak
      = if aw then 0 else if ad then inc8 s.dry_streak else 0 := by
  unfold update_level_streaks
  split_ifs <;> rfl

theorem update_hysteresis_frame (s : pump_ctx_t) :
    (update_hysteresis s).1.pump_on = s.pump_on
      ∧ (update_hysteresis s).1.pump_start_ms = s.pump_start_ms
      ∧ (update_hysteresis s).1.last_water_ms = s.last_water_ms
      ∧ (update_hysteresis s).1.zero_streak = s.zero_streak
      ∧ (update_hysteresis s).1.pump_gpio = s.pump_gpio
      ∧ (update_hysteresis s).1.inited = s.inited := by
  unfold update_hysteresis
  simp only []
  split_ifs <;> simp

/-- The local `is_full` and the field `stored_is_full` agree at line 251. -/
theorem update_hysteresis_local (s : pump_ctx_t) :
    (update_hysteresis s).2 = (update_hysteresis s).1.stored_is_full := by
  unfold update_hysteresis
  simp only []
  split_ifs <;> simp

theorem update_hysteresis_full (s : pump_ctx_t) :
    (update_hysteresis s).1.stored_is_full
      = if s.dry_streak ≥ DRY_CONFIRM_CYCLES then false
        else if s.wet_streak ≥ WET_CONFIRM_CYCLES then true
        else s.stored_is_full := by
  unfold update_hysteresis
  simp only []
  split_ifs <;> simp

theorem update_hysteresis_wet (s : pump_ctx_t) :
    (update_hysteresis s).1.wet_streak
      = if s.wet_streak ≥ WET_CONFIRM_CYCLES then WET_CONFIRM_CYCLES else s.wet_streak := by
  unfold update_hysteresis
  simp only []
  split_ifs <;> simp

theorem update_hysteresis_dry (s : pump_ctx_t) :
    (update_hysteresis s).1.dry_streak
      = if s.dry_streak ≥ DRY_CONFIRM_CYCLES then DRY_CONFIRM_CYCLES else s.dry_streak := by
  unfold update_hysteresis
  simp only []
  split_ifs <;> simp

theorem update_hysteresis_percent (s : pump_ctx_t) :
    (update_hysteresis s).1.last_level_percent
      = if (update_hysteresis s).1.stored_is_full then 100 else 0 := by
  unfold update_hysteresis
  simp only []
  split_ifs <;> simp_all

/-! ### The pump decision -/

theorem decide_pump_frame (m : Machine) (now : Nat) (f : Bool) :
    (decide_pump m now f).s_pump.zero_streak = m.s_pump.zero_streak
      ∧ (decide_pump m now f).s_pump.wet_streak = m.s_pump.wet_streak
      ∧ (decide_pump m now f).s_pump.dry_streak = m.s_pump.dry_streak
      ∧ (decide_pump m now f).s_pump.stored_is_full = m.s_pump.stored_is_full
      ∧ (decide_pump m now f).s_pump.last_level_percent = m.s_pump.last_level_percent
      ∧ (decide_pump m now f).s_pump.pump_gpio = m.s_pump.pump_gpio
      ∧ (decide_pump m now f).s_pump.inited = m.s_pump.inited := by
  unfold decide_pump
  simp only []
  split_ifs <;> simp

/-- The pump after lines 262-299, when it was on. -/
theorem decide_pump_on (m : Machine) (now : Nat) (f : Bool) (h : m.s_pump.pump_on = true) :
    decide_pump m now f
      = if sub32 now m.s_pump.pump_start_ms > MAX_PUMP_TIME_MS ∨ f = true then
          { s_pump := { m.s_pump with pump_on := false, last_water_ms := now }
            gpio_log := m.gpio_log ++ [(m.s_pump.pump_gpio, 0)] }
        else m := by
  unfold decide_pump
  simp only [h, if_true]
  split_ifs <;> simp_all
  all_goals omega

/-- The pump after lines 262-299, when it was off. -/
theorem decide_pump_off (m : Machine) (now : Nat) (f : Bool) (h : m.s_pump.pump_on = false) :
    decide_pump m now f
      = if MIN_PAUSE_MS ≤ sub32 now m.s_pump.last_water_ms ∧ f = false then
          { s_pump := { m.s_pump with pump_on := true, pump_start_ms := now }
            gpio_log := m.gpio_log ++ [(m.s_pump.pump_gpio, 1)] }
        else m := by
  unfold decide_pump
  simp only [h]
  split_ifs <;> simp_all
  all_goals omega

/-! ### The two halves of a step -/

/-- A step whose fault counter reaches the threshold stops at line 223. -/
theorem pump_step_fault (m : Machine) (now : Nat) (aw ad az : Bool)
    (h : ZERO_CONFIRM_CYCLES ≤ (update_zero_streak m.s_pump az).zero_streak) :
    pump_step m now aw ad az
      = if m.s_pump.pump_on = true then
          { s_pump :=
              { update_zero_streak m.s_pump az with pump_on := false, last_water_ms := now }
            gpio_log := m.gpio_log ++ [(m.s_pump.pump_gpio, 0)] }
        else { m with s_pump := update_zero_streak m.s_pump az } := by
  unfold pump_step
  have hf := update_zero_streak_frame m.s_pump az
  simp only [ge_iff_le, h, decide_True, if_true, hf.1, hf.2.2.2.2.2.2.2.1]

/-- A step whose fault counter stays below the threshold runs lines 226-299. -/
theorem pump_step_ok (m : Machine) (now : Nat) (aw ad az : Bool)
    (h : (update_zero_streak m.s_pump az).zero_streak < ZERO_CONFIRM_CYCLES) :
    pump_step m now aw ad az
      = decide_pump
          { m with
            s_pump :=
              (update_hysteresis
                (update_level_streaks (update_zero_streak m.s_pump az) aw ad)).1 }
          now
          (update_hysteresis
            (update_level_streaks (update_zero_streak m.s_pump az) aw ad)).2 := by
  unfold pump_step
  have h2 : ¬ ZERO_CONFIRM_CYCLES ≤ (update_zero_streak m.s_pump az).zero_streak := by omega
  simp only [ge_iff_le, h2, decide_False, Bool.false_eq_true, if_false]

/-- The fault counter after a step is the one computed at lines 201-206. -/
theorem pump_step_zero_streak (m : Machine) (now : Nat) (aw ad az : Bool) :
    (pump_step m now aw ad az).s_pump.zero_streak
      = (update_zero_streak m.s_pump az).zero_streak := by
  by_cases h : ZERO_CONFIRM_CYCLES ≤ (update_zero_streak m.s_pump az).zero_streak
  · rw [pump_step_fault m now aw ad az h]
    split_ifs <;> rfl
  · rw [pump_step_ok m now aw ad az (by omega), (decide_pump_frame _ _ _).1,
      (update_hysteresis_frame _).2.2.2.1, (update_level_streaks_frame _ _ _).2.2.2.2.1]

/-- The state handed to the pump decision at line 262: the debounce leaves
the pump fields alone. -/
theorem level_state_frame (s : pump_ctx_t) (aw ad az : Bool) :
    (update_hysteresis (update_level_streaks (update_zero_streak s az) aw ad)).1.pump_on
        = s.pump_on
      ∧ (update_hysteresis
            (update_level_streaks (update_zero_streak s az) aw ad)).1.pump_start_ms
          = s.pump_start_ms
      ∧ (update_hysteresis
            (update_level_streaks (update_zero_streak s az) aw ad)).1.last_water_ms
          = s.last_water_ms
      ∧ (update_hysteresis
            (update_level_streaks (update_zero_streak s az) aw ad)).1.pump_gpio
          = s.pump_gpio
      ∧ (update_hysteresis
            (update_level_streaks (update_zero_streak s az) aw ad)).1.inited
          = s.inited := by
  have h1 := update_hysteresis_frame (update_level_streaks (update_zero_streak s az) aw ad)
  have h2 := update_level_streaks_frame (update_zero_streak s az) aw ad
  have h3 := update_zero_streak_frame s az
  refine ⟨?_, ?_, ?_, ?_, ?_⟩
  · rw [h1.1, h2.1, h3.1]
  · rw [h1.2.1, h2.2.1, h3.2.1]
  · rw [h1.2.2.1, h2.2.2.1, h3.2.2.1]
  · rw [h1.2.2.2.2.1, h2.2.2.2.2.2.2.1, h3.2.2.2.2.2.2.2.1]
  · rw [h1.2.2.2.2.2, h2.2.2.2.2.2.2.2, h3.2.2.2.2.2.2.2.2]

/-- The level state after a step that is not a fault cycle is the one
computed at lines 226-249. -/
theorem pump_step_ok_level (m : Machine) (now : Nat) (aw ad az : Bool)
    (h : (update_zero_streak m.s_pump az).zero_streak < ZERO_CONFIRM_CYCLES) :
    (pump_step m now aw ad az).s_pump.stored_is_full
        = (update_hysteresis
            (update_level_streaks (update_zero_streak m.s_pump az) aw ad)).1.stored_is_full
      ∧ (pump_step m now aw ad az).s_pump.wet_streak
        = (update_hysteresis
            (update_level_streaks (update_zero_streak m.s_pump az) aw ad)).1.wet_streak
      ∧ (pump_step m now aw ad az).s_pump.dry_streak
        = (update_hysteresis
            (update_level_streaks (update_zero_streak m.s_pump az) aw ad)).1.dry_streak
      ∧ (pump_step m now aw ad az).s_pump.last_level_percent
        = (update_hysteresis
            (update_level_streaks
              (update_zero_streak m.s_pump az) aw ad)).1.last_level_percent := by
  rw [pump_step_ok m now aw ad az h]
  have hd := decide_pump_frame
    { m with
      s_pump :=
        (update_hysteresis (update_level_streaks (update_zero_streak m.s_pump az) aw ad)).1 }
    now (update_hysteresis (update_level_streaks (update_zero_streak m.s_pump az) aw ad)).2
  exact ⟨hd.2.2.2.1, hd.2.1, hd.2.2.1, hd.2.2.2.2.1⟩

/-- A fault cycle leaves the level state as it was. -/
theorem pump_step_fault_level (m : Machine) (now : Nat) (aw ad az : Bool)
    (h : ZERO_CONFIRM_CYCLES ≤ (update_zero_streak m.s_pump az).zero_streak) :
    (pump_step m now aw ad az).s_pump.stored_is_full = m.s_pump.stored_is_full
      ∧ (pump_step m now aw ad az).s_pump.wet_streak = m.s_pump.wet_streak
      ∧ (pump_step m now aw ad az).s_pump.dry_streak = m.s_pump.dry_streak
      ∧ (pump_step m now aw ad az).s_pump.last_level_percent
          = m.s_pump.last_level_percent
      ∧ (pump_step m now aw ad az).s_pump.pump_start_ms = m.s_pump.pump_start_ms := by
  rw [pump_step_fault m now aw ad az h]
  have hf := update_zero_streak_frame m.s_pump az
  split_ifs
  · exact ⟨hf.2.2.2.1, hf.2.2.2.2.2.1, hf.2.2.2.2.1, hf.2.2.2.2.2.2.1, hf.2.1⟩
  · exact ⟨hf.2.2.2.1, hf.2.2.2.2.2.1, hf.2.2.2.2.1, hf.2.2.2.2.2.2.1, hf.2.1⟩

/-- The pump fields after a step that is not a fault cycle and that started
with the pump on. -/
theorem pump_step_ok_on (m : Machine) (now : Nat) (aw ad az : Bool)
    (h : (update_zero_streak m.s_pump az).zero_streak < ZERO_CONFIRM_CYCLES)
    (hp : m.s_pump.pump_on = true) :
    (pump_step m now aw ad az).s_pump.pump_start_ms = m.s_pump.pump_start_ms
      ∧ ((pump_step m now aw ad az).s_pump.pump_on = true ↔
          sub32 now m.s_pump.pump_start_ms ≤ MAX_PUMP_TIME_MS
            ∧ (pump_step m now aw ad az).s_pump.stored_is_full = false)
      ∧ ((pump_step m now aw ad az).s_pump.pump_on = true →
          (pump_step m now aw ad az).s_pump.last_water_ms = m.s_pump.last_water_ms)
      ∧ ((pump_step m now aw ad az).s_pump.pump_on = false →
          (pump_step m now aw ad az).s_pump.last_water_ms = now) := by
  have hl := (pump_step_ok_level m now aw ad az h).1
  have hloc := update_hysteresis_local
    (update_level_streaks (update_zero_streak m.s_pump az) aw ad)
  have hfr := level_state_frame m.s_pump aw ad az
  rw [hl]
  rw [pump_step_ok m now aw ad az h, decide_pump_on _ _ _ (by simpa using hfr.1.trans hp)]
  simp only [hfr.2.1, hloc]
  split_ifs with hc
  · refine ⟨rfl, ?_, ?_, ?_⟩
    · simp only [Bool.false_eq_true, false_iff, not_and, Bool.not_eq_false]
      intro hle
      rcases hc with hc | hc
      · omega
      · exact hc
    · simp
    · simp
  · simp only [not_or, not_lt, Bool.not_eq_true] at hc
    refine ⟨hfr.2.1, ?_, ?_, ?_⟩
    · simp only [hfr.1, hp, true_iff]
      exact hc
    · intro _
      exact hfr.2.2.1
    · simp [hfr.1, hp]

/-- The pump fields after a step that is not a fault cycle and that started
with the pump off. -/
theorem pump_step_ok_off (m : Machine) (now : Nat) (aw ad az : Bool)
    (h : (update_zero_streak m.s_pump az).zero_streak < ZERO_CONFIRM_CYCLES)
    (hp : m.s_pump.pump_on = false) :
    (pump_step m now aw ad az).s_pump.last_water_ms = m.s_pump.last_water_ms
      ∧ ((pump_step m now aw ad az).s_pump.pump_on = true ↔
          MIN_PAUSE_MS ≤ sub32 now m.s_pump.last_water_ms
            ∧ (pump_step m now aw ad az).s_pump.stored_is_full = false)
      ∧ ((pump_step m now aw ad az).s_pump.pump_on = true →
          (pump_step m now aw ad az).s_pump.pump_start_ms = now)
      ∧ ((pump_step m now aw ad az).s_pump.pump_on = false →
          (pump_step m now aw ad az).s_pump.pump_start_ms = m.s_pump.pump_start_ms) := by
  have hl := (pump_step_ok_level m now aw ad az h).1
  have hloc := update_hysteresis_local
    (update_level_streaks (update_zero_streak m.s_pump az) aw ad)
  have hfr := level_state_frame m.s_pump aw ad az
  rw [hl]
  rw [pump_step_ok m now aw ad az h, decide_pump_off _ _ _ (by simpa using hfr.1.trans hp)]
  simp only [hfr.2.2.1, hloc]
  split_ifs with hc
  · refine ⟨rfl, ?_, ?_, ?_⟩
    · simp only [true_iff]
      exact hc
    · simp
    · simp
  · refine ⟨hfr.2.2.1, ?_, ?_, ?_⟩
    · simp only [hfr.1, hp, Bool.false_eq_true, false_iff]
      exact hc
    · simp [hfr.1, hp]
    · intro _
      exact hfr.2.1

/-- The pin writes of a step that is not a fault cycle and that started with
the pump off: one write of 1 when the pump is switched on, none otherwise. -/
theorem pump_step_ok_off_log (m : Machine) (now : Nat) (aw ad az : Bool)
    (h : (update_zero_streak m.s_pump az).zero_streak < ZERO_CONFIRM_CYCLES)
    (hp : m.s_pump.pump_on = false) :
    (pump_step m now aw ad az).gpio_log
      = m.gpio_log
          ++ (if (pump_step m now aw ad az).s_pump.pump_on
              then [(m.s_pump.pump_gpio, 1)] else []) := by
  have hfr := level_state_frame m.s_pump aw ad az
  rw [pump_step_ok m now aw ad az h, decide_pump_off _ _ _ (by simpa using hfr.1.trans hp)]
  by_cases hc : MIN_PAUSE_MS ≤ sub32 now
      ({ m with
          s_pump :=
            (update_hysteresis
              (update_level_streaks
                (update_zero_streak m.s_pump az) aw ad)).1 } : Machine).s_pump.last_water_ms
      ∧ (update_hysteresis
          (update_level_streaks (update_zero_streak m.s_pump az) aw ad)).2 = false
  · rw [if_pos hc]
    simp [hfr.2.2.2.1]
  · rw [if_neg hc]
    simp [hfr.1, hp]

/-! ### Runs -/

theorem run_nil (m : Machine) : run m [] = m := rfl

theorem run_cons (m : Machine) (c : Cycle) (cs : List Cycle) :
    run m (c :: cs) = run (cycle_step m c) cs := rfl

theorem run_snoc (m : Machine) (cs : List Cycle) (c : Cycle) :
    run m (cs ++ [c]) = cycle_step (run m cs) c := by
  unfold run
  rw [List.foldl_append]
  rfl

theorem run_append (m : Machine) (as bs : List Cycle) :
    run m (as ++ bs) = run (run m as) bs := by
  unfold run
  rw [List.foldl_append]

theorem cycle_step_zero_streak (m : Machine) (c : Cycle) (h : c.all_zero = true) :
    (cycle_step m c).s_pump.zero_streak
      = if m.s_pump.zero_streak < 255 then m.s_pump.zero_streak + 1
        else m.s_pump.zero_streak := by
  unfold cycle_step
  rw [pump_step_zero_streak, update_zero_streak_val, h]
  rfl

/-- The fault counter along a run of all-zero cycles: it counts up to 255 and
stays there. -/
theorem run_all_zero_streak (cs : List Cycle) :
    ∀ m : Machine, (∀ x ∈ cs, x.all_zero = true) →
      (run m cs).s_pump.zero_streak
        = if m.s_pump.zero_streak < 255 then min 255 (m.s_pump.zero_streak + cs.length)
          else m.s_pump.zero_streak := by
  induction cs with
  | nil =>
    intro m _
    rw [run_nil]
    split_ifs
    · simp only [List.length_nil, Nat.add_zero]
      omega
    · rfl
  | cons c cs ih =>
    intro m hz
    have hc : c.all_zero = true := hz c (List.mem_cons_self c cs)
    have hcs : ∀ x ∈ cs, x.all_zero = true := fun x hx => hz x (List.mem_cons_of_mem c hx)
    rw [run_cons, ih (cycle_step m c) hcs, cycle_step_zero_streak m c hc]
    simp only [List.length_cons]
    split_ifs <;> omega

/-- A step that ends with the fault counter at or above the threshold ends
with the pump off: it wrote 0 to the pump pin if the pump was on, and wrote
nothing otherwise. -/
theorem pump_step_fault_off (m : Machine) (now : Nat) (aw ad az : Bool)
    (h : ZERO_CONFIRM_CYCLES ≤ (pump_step m now aw ad az).s_pump.zero_streak) :
    (pump_step m now aw ad az).s_pump.pump_on = false
      ∧ (pump_step m now aw ad az).gpio_log
          = m.gpio_log ++ (if m.s_pump.pump_on then [(m.s_pump.pump_gpio, 0)] else []) := by
  rw [pump_step_zero_streak] at h
  rw [pump_step_fault m now aw ad az h]
  have hf := update_zero_streak_frame m.s_pump az
  by_cases hp : m.s_pump.pump_on = true
  · simp [hp]
  · simp [hp, hf.1]

/-! ### The rest timer across one step -/

/-- Whenever a step switches the pump off, by fault, by timeout or because
the level is full, it stamps `last_water_ms`. -/
theorem pump_step_turn_off (m : Machine) (now : Nat) (aw ad az : Bool)
    (hp : m.s_pump.pump_on = true)
    (hoff : (pump_step m now aw ad az).s_pump.pump_on = false) :
    (pump_step m now aw ad az).s_pump.last_water_ms = now := by
  by_cases hf : ZERO_CONFIRM_CYCLES ≤ (update_zero_streak m.s_pump az).zero_streak
  · rw [pump_step_fault m now aw ad az hf, if_pos hp]
  · exact (pump_step_ok_on m now aw ad az (by omega) hp).2.2.2 hoff

/-- A step entered with the pump off does not touch `last_water_ms`. -/
theorem pump_step_off_last (m : Machine) (now : Nat) (aw ad az : Bool)
    (hp : m.s_pump.pump_on = false) :
    (pump_step m now aw ad az).s_pump.last_water_ms = m.s_pump.last_water_ms := by
  by_cases hf : ZERO_CONFIRM_CYCLES ≤ (update_zero_streak m.s_pump az).zero_streak
  · have hne : ¬ m.s_pump.pump_on = true := by simp [hp]
    rw [pump_step_fault m now aw ad az hf, if_neg hne]
    exact (update_zero_streak_frame m.s_pump az).2.2.1
  · exact (pump_step_ok_off m now aw ad az (by omega) hp).1

/-- A step switches the pump on only after the rest interval. -/
theorem pump_step_turn_on (m : Machine) (now : Nat) (aw ad az : Bool)
    (hp : m.s_pump.pump_on = false)
    (hon : (pump_step m now aw ad az).s_pump.pump_on = true) :
    MIN_PAUSE_MS ≤ sub32 now m.s_pump.last_water_ms := by
  by_cases hf : ZERO_CONFIRM_CYCLES ≤ (update_zero_streak m.s_pump az).zero_streak
  · have hoff := (pump_step_fault_off m now aw ad az
      (by rw [pump_step_zero_streak]; exact hf)).1
    rw [hoff] at hon
    exact absurd hon (by decide)
  · exact ((pump_step_ok_off m now aw ad az (by omega) hp).2.1.1 hon).1

theorem RestStamp.mono {m : Machine} {lo hi top : Nat} (h : RestStamp m lo hi)
    (hle : hi ≤ top) : RestStamp m lo top := by
  intro hoff
  obtain ⟨w, h1, h2, h3⟩ := h hoff
  exact ⟨w, h1, le_trans h2 hle, h3⟩

theorem RestStamp.step {m : Machine} {lo hi : Nat} (h : RestStamp m lo hi) (hlo : lo ≤ hi)
    (c : Cycle) (hc : hi ≤ c.t_ms) : RestStamp (cycle_step m c) lo c.t_ms := by
  intro hoff
  unfold cycle_step at hoff ⊢
  by_cases hp : m.s_pump.pump_on = true
  · refine ⟨c.t_ms, le_trans hlo hc, le_refl _, ?_⟩
    rw [pump_step_turn_off m _ _ _ _ hp hoff]
    rfl
  · have hp2 : m.s_pump.pump_on = false := by simpa using hp
    obtain ⟨w, h1, h2, h3⟩ := h hp2
    refine ⟨w, h1, le_trans h2 hc, ?_⟩
    rw [pump_step_off_last m _ _ _ _ hp2]
    exact h3

theorem RestStamp.run (cs : List Cycle) :
    ∀ (m : Machine) (lo hi top : Nat), RestStamp m lo hi → lo ≤ hi → hi ≤ top →
      List.Pairwise (fun a b : Cycle => a.t_ms ≤ b.t_ms) cs →
      (∀ c ∈ cs, hi ≤ c.t_ms ∧ c.t_ms ≤ top) →
      RestStamp (PumpNode.run m cs) lo top := by
  induction cs with
  | nil =>
    intro m lo hi top h _ htop _ _
    exact h.mono htop
  | cons c cs ih =>
    intro m lo hi top h hlo htop hs hb
    rw [run_cons]
    have hc := hb c (List.mem_cons_self c cs)
    rw [List.pairwise_cons] at hs
    refine ih (cycle_step m c) lo c.t_ms top (h.step hlo c hc.1) (le_trans hlo hc.1) hc.2
      hs.2 ?_
    intro x hx
    exact ⟨hs.1 x hx, (hb x (List.mem_cons_of_mem c hx)).2⟩

/-! ### The level state across one step -/

/-- The debounce fields after a step, in terms of the fields before it: a
fault cycle leaves them alone, any other cycle runs lines 226-249. -/
theorem pump_step_level (m : Machine) (now : Nat) (aw ad az : Bool) :
    (pump_step m now aw ad az).s_pump.stored_is_full
        = (if ZERO_CONFIRM_CYCLES ≤ (pump_step m now aw ad az).s_pump.zero_streak
            then m.s_pump.stored_is_full
          else if DRY_CONFIRM_CYCLES
              ≤ (if aw then 0 else if ad then inc8 m.s_pump.dry_streak else 0) then false
          else if WET_CONFIRM_CYCLES ≤ (if aw then inc8 m.s_pump.wet_streak else 0) then true
          else m.s_pump.stored_is_full)
      ∧ (pump_step m now aw ad az).s_pump.wet_streak
        = (if ZERO_CONFIRM_CYCLES ≤ (pump_step m now aw ad az).s_pump.zero_streak
            then m.s_pump.wet_streak
          else if WET_CONFIRM_CYCLES ≤ (if aw then inc8 m.s_pump.wet_streak else 0)
            then WET_CONFIRM_CYCLES
          else (if aw then inc8 m.s_pump.wet_streak else 0))
      ∧ (pump_step m now aw ad az).s_pump.dry_streak
        = (if ZERO_CONFIRM_CYCLES ≤ (pump_step m now aw ad az).s_pump.zero_streak
            then m.s_pump.dry_streak
          else if DRY_CONFIRM_CYCLES
              ≤ (if aw then 0 else if ad then inc8 m.s_pump.dry_streak else 0)
            then DRY_CONFIRM_CYCLES
          else (if aw then 0 else if ad then inc8 m.s_pump.dry_streak else 0)) := by
  rw [pump_step_zero_streak]
  have hz := update_zero_streak_frame m.s_pump az
  by_cases hf : ZERO_CONFIRM_CYCLES ≤ (update_zero_streak m.s_pump az).zero_streak
  · have h := pump_step_fault_level m now aw ad az hf
    rw [if_pos hf, if_pos hf, if_pos hf]
    exact ⟨h.1, h.2.1, h.2.2.1⟩
  · have h := pump_step_ok_level m now aw ad az (by omega)
    rw [if_neg hf, if_neg hf, if_neg hf, h.1, h.2.1, h.2.2.1, update_hysteresis_full,
      update_hysteresis_wet, update_hysteresis_dry, update_level_streaks_wet,
      update_level_streaks_dry, hz.2.2.2.2.1, hz.2.2.2.2.2.1,
      (update_level_streaks_frame _ _ _).2.2.2.1, hz.2.2.2.1]
    exact ⟨rfl, rfl, rfl⟩

/-- The fault counter after a step, in terms of the counter before it. -/
theorem pump_step_zero (m : Machine) (now : Nat) (aw ad az : Bool) :
    (pump_step m now aw ad az).s_pump.zero_streak
      = if az then (if m.s_pump.zero_streak < 255 then m.s_pump.zero_streak + 1
          else m.s_pump.zero_streak)
        else 0 := by
  rw [pump_step_zero_streak, update_zero_streak_val]

theorem inc8_zero : inc8 0 = 1 := rfl

theorem inc8_one : inc8 1 = 2 := rfl

theorem inc8_two : inc8 2 = 3 := rfl

/-! ### The sensor -/

/-- A direction that classifies as wet is not near zero. -/
theorem wet_not_zero (u : Option ℚ) (h : classify_voltage u = water_state_t.WATER_WET) :
    is_zero_voltage u = false := by
  cases u with
  | none => rfl
  | some v =>
    unfold classify_voltage at h
    unfold is_zero_voltage
    simp only [decide_eq_false_iff_not, not_le]
    by_cases hw : v ≥ WET_VOLTAGE
    · unfold WET_VOLTAGE at hw
      unfold ZERO_VOLTAGE
      have : (2 : ℚ) / 100 < 190 / 100 := by norm_num
      exact lt_of_lt_of_le this hw
    · simp only [hw, if_false] at h
      split_ifs at h

/-- A reading of `get_water_state` with `any_water` has `all_zero` false. -/
theorem any_water_not_all_zero (u_ab u_ba : Option ℚ)
    (h : (get_water_state u_ab u_ba).any_water = true) :
    (get_water_state u_ab u_ba).all_zero = false := by
  unfold get_water_state at h ⊢
  simp only [Bool.or_eq_true, decide_eq_true_eq] at h
  simp only [Bool.and_eq_false_imp]
  rcases h with h | h
  · intro hz
    rw [wet_not_zero u_ab h] at hz
    exact absurd hz (by decide)
  · intro _
    exact wet_not_zero u_ba h

theorem classify_wet_iff (v : ℚ) :
    classify_voltage (some v) = water_state_t.WATER_WET ↔ WET_VOLTAGE ≤ v := by
  unfold classify_voltage
  simp only [ge_iff_le]
  split_ifs with h1 h2
  · exact ⟨fun _ => h1, fun _ => rfl⟩
  · exact ⟨fun h => absurd h (by decide), fun h => absurd h h1⟩
  · exact ⟨fun h => absurd h (by decide), fun h => absurd h h1⟩

theorem classify_dry_iff (v : ℚ) :
    classify_voltage (some v) = water_state_t.WATER_DRY ↔ v ≤ DRY_VOLTAGE := by
  unfold classify_voltage
  simp only [ge_iff_le]
  split_ifs with h1 h2
  · refine ⟨fun h => absurd h (by decide), fun h => ?_⟩
    unfold WET_VOLTAGE at h1
    unfold DRY_VOLTAGE at h
    have : (110 : ℚ) / 100 < 190 / 100 := by norm_num
    exact absurd (lt_of_le_of_lt h this) (not_lt.2 h1)
  · exact ⟨fun _ => h2, fun _ => rfl⟩
  · exact ⟨fun h => absurd h (by decide), fun h => absurd h h2⟩

theorem classify_unknown_iff (v : ℚ) :
    classify_voltage (some v) = water_state_t.WATER_UNKNOWN
      ↔ ¬ WET_VOLTAGE ≤ v ∧ ¬ v ≤ DRY_VOLTAGE := by
  unfold classify_voltage
  simp only [ge_iff_le]
  split_ifs with h1 h2
  · exact ⟨fun h => absurd h (by decide), fun h => absurd h1 h.1⟩
  · exact ⟨fun h => absurd h (by decide), fun h => absurd h2 h.2⟩
  · exact ⟨fun _ => ⟨h1, h2⟩, fun _ => rfl⟩

theorem is_zero_voltage_iff (u : Option ℚ) :
    is_zero_voltage u = true ↔ ∃ v : ℚ, u = some v ∧ v ≤ ZERO_VOLTAGE := by
  cases u with
  | none =>
    unfold is_zero_voltage
    simp
  | some v =>
    unfold is_zero_voltage
    simp

theorem get_water_state_any_water (u_ab u_ba : Option ℚ) :
    (get_water_state u_ab u_ba).any_water = true
      ↔ classify_voltage u_ab = water_state_t.WATER_WET
        ∨ classify_voltage u_ba = water_state_t.WATER_WET := by
  unfold get_water_state
  simp only [Bool.or_eq_true, decide_eq_true_eq]

theorem get_water_state_all_dry (u_ab u_ba : Option ℚ) :
    (get_water_state u_ab u_ba).all_dry = true
      ↔ classify_voltage u_ab = water_state_t.WATER_DRY
        ∧ classify_voltage u_ba = water_state_t.WATER_DRY := by
  unfold get_water_state
  simp only [Bool.and_eq_true, decide_eq_true_eq]

theorem get_water_state_all_zero (u_ab u_ba : Option ℚ) :
    (get_water_state u_ab u_ba).all_zero = true
      ↔ is_zero_voltage u_ab = true ∧ is_zero_voltage u_ba = true := by
  unfold get_water_state
  simp only [Bool.and_eq_true]

theorem classify_f32_wet_iff (v : ℚ) :
    classify_voltage_f32 (some v) = water_state_t.WATER_WET ↔ WET_VOLTAGE_F32 ≤ v := by
  unfold classify_voltage_f32
  simp only [ge_iff_le]
  split_ifs with h1 h2
  · exact ⟨fun _ => h1, fun _ => rfl⟩
  · exact ⟨fun h => absurd h (by decide), fun h => absurd h h1⟩
  · exact ⟨fun h => absurd h (by decide), fun h => absurd h h1⟩

theorem classify_f32_dry_iff (v : ℚ) :
    classify_voltage_f32 (some v) = water_state_t.WATER_DRY ↔ v ≤ DRY_VOLTAGE_F32 := by
  unfold classify_voltage_f32
  simp only [ge_iff_le]
  split_ifs with h1 h2
  · refine ⟨fun h => absurd h (by decide), fun h => ?_⟩
    unfold WET_VOLTAGE_F32 at h1
    unfold DRY_VOLTAGE_F32 at h
    have : (9227469 : ℚ) / 8388608 < 15938355 / 8388608 := by norm_num
    exact absurd (lt_of_le_of_lt h this) (not_lt.2 h1)
  · exact ⟨fun _ => h2, fun _ => rfl⟩
  · exact ⟨fun h => absurd h (by decide), fun h => absurd h h2⟩

theorem classify_f32_unknown_iff (v : ℚ) :
    classify_voltage_f32 (some v) = water_state_t.WATER_UNKNOWN
      ↔ ¬ WET_VOLTAGE_F32 ≤ v ∧ ¬ v ≤ DRY_VOLTAGE_F32 := by
  unfold classify_voltage_f32
  simp only [ge_iff_le]
  split_ifs with h1 h2
  · exact ⟨fun h => absurd h (by decide), fun h => absurd h1 h.1⟩
  · exact ⟨fun h => absurd h (by decide), fun h => absurd h2 h.2⟩
  · exact ⟨fun _ => ⟨h1, h2⟩, fun _ => rfl⟩

theorem get_water_state_f32_any_water (u_ab u_ba : Option ℚ) :
    (get_water_state_f32 u_ab u_ba).any_water = true
      ↔ classify_voltage_f32 u_ab = water_state_t.WATER_WET
        ∨ classify_voltage_f32 u_ba = water_state_t.WATER_WET := by
  unfold get_water_state_f32
  simp only [Bool.or_eq_true, decide_eq_true_eq]

theorem get_water_state_f32_all_dry (u_ab u_ba : Option ℚ) :
    (get_water_state_f32 u_ab u_ba).all_dry = true
      ↔ classify_voltage_f32 u_ab = water_state_t.WATER_DRY
        ∧ classify_voltage_f32 u_ba = water_state_t.WATER_DRY := by
  unfold get_water_state_f32
  simp only [Bool.and_eq_true, decide_eq_true_eq]

/-- The two levels of the classification agree on every voltage that is not
between a decimal threshold and its binary32 value. -/
theorem classify_voltage_f32_eq (v : ℚ)
    (hdry : ¬ ((110 : ℚ) / 100 < v ∧ v ≤ DRY_VOLTAGE_F32))
    (hwet : ¬ (WET_VOLTAGE_F32 ≤ v ∧ v < (190 : ℚ) / 100)) :
    classify_voltage_f32 (some v) = classify_voltage (some v) := by
  have hW : WET_VOLTAGE_F32 ≤ v ↔ WET_VOLTAGE ≤ v := by
    constructor
    · intro h
      unfold WET_VOLTAGE
      exact not_lt.1 (fun hlt => hwet ⟨h, hlt⟩)
    · intro h
      unfold WET_VOLTAGE at h
      unfold WET_VOLTAGE_F32
      have : (15938355 : ℚ) / 8388608 ≤ 190 / 100 := by norm_num
      exact le_trans this h
  have hD : v ≤ DRY_VOLTAGE_F32 ↔ v ≤ DRY_VOLTAGE := by
    constructor
    · intro h
      unfold DRY_VOLTAGE
      exact not_lt.1 (fun hlt => hdry ⟨hlt, h⟩)
    · intro h
      unfold DRY_VOLTAGE at h
      unfold DRY_VOLTAGE_F32
      have : (110 : ℚ) / 100 ≤ 9227469 / 8388608 := by norm_num
      exact le_trans h this
  unfold classify_voltage_f32 classify_voltage
  simp only [ge_iff_le, hW, hD]

/-- A near-zero voltage is below the dry threshold. -/
theorem zero_le_dry (v : ℚ) (h : v ≤ ZERO_VOLTAGE) : v ≤ DRY_VOLTAGE := by
  unfold ZERO_VOLTAGE at h
  unfold DRY_VOLTAGE
  have : (2 : ℚ) / 100 ≤ 110 / 100 := by norm_num
  exact le_trans h this

/-- The reading of a probe with both directions near zero: dry and zero at
once, and not wet. -/
theorem get_water_state_near_zero (a b : ℚ) (ha : a ≤ ZERO_VOLTAGE) (hb : b ≤ ZERO_VOLTAGE) :
    get_water_state (some a) (some b)
      = { any_water := false, all_dry := true, all_zero := true } := by
  have hda := (classify_dry_iff a).2 (zero_le_dry a ha)
  have hdb := (classify_dry_iff b).2 (zero_le_dry b hb)
  unfold get_water_state
  simp only [hda, hdb, is_zero_voltage, ha, hb, decide_True, Bool.and_self, Bool.or_self]
  rfl

/-- The loop of `measure_voltage` stops at a failed read. -/
theorem adc_sum_none (adc_read : Nat → Option Int) (l : List Nat) :
    ∀ init : Int, (∃ i ∈ l, adc_read i = none) →
      l.foldlM (fun (sum : Int) (i : Nat) => (adc_read i).map (fun raw => sum + raw)) init
        = none := by
  induction l with
  | nil =>
    intro init h
    obtain ⟨i, hi, _⟩ := h
    exact absurd hi (List.not_mem_nil i)
  | cons a l ih =>
    intro init h
    rw [List.foldlM_cons]
    cases ha : adc_read a with
    | none => rfl
    | some raw =>
      obtain ⟨i, hi, hnone⟩ := h
      rcases List.mem_cons.1 hi with rfl | hmem
      · rw [ha] at hnone
        exact absurd hnone (by simp)
      · exact ih (init + raw) ⟨i, hmem, hnone⟩

/-- The value of a binary32 number with a negative exponent. -/
theorem f32_val_neg (m k : Nat) :
    f32.val { m := m, e := -(k : Int) } = (m : ℚ) / 2 ^ k := by
  unfold f32.val
  simp only [zpow_neg, zpow_natCast]
  rfl

set_option maxRecDepth 20000

/-- The literals of lines 26, 27, 32, 33 and 36 round to the binary32 values
used here. -/
theorem f32_literals :
    (f32.round 110 100 0).val = DRY_VOLTAGE_F32
      ∧ (f32.round 190 100 0).val = WET_VOLTAGE_F32
      ∧ (f32.round 2 100 0).val = ZERO_VOLTAGE_F32
      ∧ f32.round 33 10 0 = ADC_VREF
      ∧ (f32.of_nat ADC_MAX_RAW).val = 4095
      ∧ (f32.of_nat 10).val = 10 := by
  have h1 : f32.round 110 100 0 = { m := 9227469, e := -((23 : Nat) : Int) } := by decide
  have h2 : f32.round 190 100 0 = { m := 15938355, e := -((23 : Nat) : Int) } := by decide
  have h3 : f32.round 2 100 0 = { m := 10737418, e := -((29 : Nat) : Int) } := by decide
  have h4 : f32.of_nat ADC_MAX_RAW = { m := 16773120, e := -((12 : Nat) : Int) } := by decide
  have h5 : f32.of_nat 10 = { m := 10485760, e := -((20 : Nat) : Int) } := by decide
  refine ⟨?_, ?_, ?_, by decide, ?_, ?_⟩
  · rw [h1, f32_val_neg]
    norm_num [DRY_VOLTAGE_F32]
  · rw [h2, f32_val_neg]
    norm_num [WET_VOLTAGE_F32]
  · rw [h3, f32_val_neg]
    norm_num [ZERO_VOLTAGE_F32]
  · rw [h4, f32_val_neg]
    norm_num
  · rw [h5, f32_val_neg]
    norm_num

/-- Ten successful reads of the full-scale code give the float `3.3f`. -/
theorem measure_voltage_full_scale :
    measure_voltage (fun _ => some 4095) = some ((13841203 : ℚ) / 4194304) := by
  have hsum : (List.range 10).foldlM
      (fun (sum : Int) (i : Nat) =>
        ((fun _ => some 4095 : Nat → Option Int) i).map (fun raw => sum + raw)) 0
      = some 40950 := by
    decide
  have hm : measured_magnitude 40950 = { m := 13841203, e := -((22 : Nat) : Int) } := by
    decide
  unfold measure_voltage
  rw [hsum]
  simp only [Option.map_some', Int.natAbs_ofNat]
  rw [if_neg (by decide), show Int.natAbs 40950 = 40950 from rfl, hm, f32_val_neg]
  norm_num

/-- Ten successful reads of the code 1365 give the float `1.10f`. -/
theorem measure_voltage_dry_threshold :
    measure_voltage (fun _ => some 1365) = some DRY_VOLTAGE_F32 := by
  have hsum : (List.range 10).foldlM
      (fun (sum : Int) (i : Nat) =>
        ((fun _ => some 1365 : Nat → Option Int) i).map (fun raw => sum + raw)) 0
      = some 13650 := by
    decide
  have hm : measured_magnitude 13650 = { m := 9227469, e := -((23 : Nat) : Int) } := by
    decide
  unfold measure_voltage
  rw [hsum]
  simp only [Option.map_some', Int.natAbs_ofNat]
  rw [if_neg (by decide), show Int.natAbs 13650 = 13650 from rfl, hm, f32_val_neg]
  norm_num [DRY_VOLTAGE_F32]

set_option maxRecDepth 512

/-! ### Initialisation -/

/-- The controller state left by a first successful `pump_node_init`. -/
theorem pump_node_init_state (m0 : Machine) (pins : pump_node_pins_t) (t_us : Nat)
    (m : Machine) (h0 : m0.s_pump.inited = false)
    (h : pump_node_init m0 (some pins) true true true true t_us = some (m, ESP_OK)) :
    m.s_pump
      = { level_a_gpio := pins.level_a_gpio
          level_b_gpio := pins.level_b_gpio
          pump_gpio := pins.pump_gpio
          inited := true
          pump_on := false
          pump_start_ms := 0
          last_water_ms := sub32 (now_ms t_us) MIN_PAUSE_MS
          stored_is_full := false
          dry_streak := DRY_CONFIRM_CYCLES
          wet_streak := 0
          zero_streak := 0
          last_level_percent := 0 } := by
  unfold pump_node_init at h
  simp only [h0, Bool.false_eq_true, if_false, Bool.not_true, Option.some.injEq,
    Prod.mk.injEq] at h
  rw [← h.1]

/-- A step entered with the pump off and the rest interval not yet elapsed
leaves the pump off. -/
theorem pump_step_rest_lockout (m : Machine) (now : Nat) (aw ad az : Bool)
    (hp : m.s_pump.pump_on = false) (hsoon : sub32 now m.s_pump.last_water_ms < MIN_PAUSE_MS) :
    (pump_step m now aw ad az).s_pump.pump_on = false := by
  by_contra hne
  have hon : (pump_step m now aw ad az).s_pump.pump_on = true := by simpa using hne
  have := pump_step_turn_on m now aw ad az hp hon
  omega

/-- The 32-bit difference of two clock readings less than `MIN_PAUSE_MS`
apart. -/
theorem sub32_now_ms_lt (a b : Nat) (hab : a / 1000 ≤ b / 1000)
    (hlt : b / 1000 < a / 1000 + MIN_PAUSE_MS) :
    sub32 (now_ms b) (now_ms a) < MIN_PAUSE_MS := by
  unfold now_ms
  rw [sub32_of_le (b / 1000) (a / 1000) hab (by unfold MIN_PAUSE_MS U32 at *; omega)]
  omega

/-- A step keeps `last_level_percent` in line with `stored_is_full`: a fault
cycle changes neither, any other cycle assigns both at lines 238-251. -/
theorem pump_step_percent (m : Machine) (now : Nat) (aw ad az : Bool)
    (h : m.s_pump.last_level_percent = if m.s_pump.stored_is_full then 100 else 0) :
    (pump_step m now aw ad az).s_pump.last_level_percent
      = if (pump_step m now aw ad az).s_pump.stored_is_full then 100 else 0 := by
  by_cases hf : ZERO_CONFIRM_CYCLES ≤ (update_zero_streak m.s_pump az).zero_streak
  · have hl := pump_step_fault_level m now aw ad az hf
    rw [hl.1, hl.2.2.2.1]
    exact h
  · have hl := pump_step_ok_level m now aw ad az (by omega)
    rw [hl.1, hl.2.2.2]
    exact update_hysteresis_percent _

/-- A step keeps the level streaks within their confirmation thresholds. -/
theorem pump_step_streak_bounds (m : Machine) (now : Nat) (aw ad az : Bool)
    (h : m.s_pump.wet_streak ≤ WET_CONFIRM_CYCLES ∧ m.s_pump.dry_streak ≤ DRY_CONFIRM_CYCLES) :
    (pump_step m now aw ad az).s_pump.wet_streak ≤ WET_CONFIRM_CYCLES
      ∧ (pump_step m now aw ad az).s_pump.dry_streak ≤ DRY_CONFIRM_CYCLES := by
  have hL := pump_step_level m now aw ad az
  rw [hL.2.1, hL.2.2]
  constructor
  · split_ifs <;> first | exact h.1 | exact le_refl _ | omega
  · split_ifs <;> first | exact h.2 | exact le_refl _ | omega

/-- The first step after `pump_node_init`, and any step from a state like the
one it leaves (pump off, no fault count, level not full, `dry_streak` at its
threshold) with the rest interval elapsed: the pump is switched on whatever
the reading is. -/
theorem pump_step_ready (m : Machine) (now : Nat) (aw ad az : Bool)
    (hp : m.s_pump.pump_on = false) (hz : m.s_pump.zero_streak = 0)
    (hfull : m.s_pump.stored_is_full = false) (hwet : m.s_pump.wet_streak = 0)
    (hdry : m.s_pump.dry_streak = DRY_CONFIRM_CYCLES)
    (hrest : MIN_PAUSE_MS ≤ sub32 now m.s_pump.last_water_ms) :
    (pump_step m now aw ad az).s_pump.pump_on = true
      ∧ (pump_step m now aw ad az).s_pump.pump_start_ms = now
      ∧ (pump_step m now aw ad az).s_pump.stored_is_full = false
      ∧ (pump_step m now aw ad az).s_pump.zero_streak = (if az then 1 else 0)
      ∧ (pump_step m now aw ad az).s_pump.dry_streak
          = (if aw then 0 else if ad then DRY_CONFIRM_CYCLES else 0)
      ∧ (pump_step m now aw ad az).gpio_log = m.gpio_log ++ [(m.s_pump.pump_gpio, 1)] := by
  have hZ := pump_step_zero m now aw ad az
  rw [hz] at hZ
  have hZ2 : (pump_step m now aw ad az).s_pump.zero_streak = (if az then 1 else 0) := by
    rw [hZ]
    cases az <;> rfl
  have hnf : ¬ ZERO_CONFIRM_CYCLES ≤ (pump_step m now aw ad az).s_pump.zero_streak := by
    rw [hZ2]
    unfold ZERO_CONFIRM_CYCLES
    split_ifs <;> omega
  have hL := pump_step_level m now aw ad az
  rw [if_neg hnf, if_neg hnf, if_neg hnf, hfull, hwet, hdry] at hL
  have hfull2 : (pump_step m now aw ad az).s_pump.stored_is_full = false := by
    rw [hL.1]
    cases aw <;> cases ad <;> decide
  have hdry2 : (pump_step m now aw ad az).s_pump.dry_streak
      = (if aw then 0 else if ad then DRY_CONFIRM_CYCLES else 0) := by
    rw [hL.2.2]
    cases aw <;> cases ad <;> decide
  have hu : (update_zero_streak m.s_pump az).zero_streak < ZERO_CONFIRM_CYCLES := by
    rw [← pump_step_zero_streak m now aw ad az]
    omega
  have hoff := pump_step_ok_off m now aw ad az hu hp
  have hon : (pump_step m now aw ad az).s_pump.pump_on = true := hoff.2.1.2 ⟨hrest, hfull2⟩
  refine ⟨hon, hoff.2.2.1 hon, hfull2, hZ2, hdry2, ?_⟩
  rw [pump_step_ok_off_log m now aw ad az hu hp, hon]
  rfl

/-- The rest timer set by `pump_node_init` at `t0` is elapsed at every clock
reading `t1` from `t0` up to `2^32 - MIN_PAUSE_MS` ms later. -/
theorem sub32_init_rest (t0 t1 : Nat) (h01 : t0 / 1000 ≤ t1 / 1000)
    (hwin : t1 / 1000 - t0 / 1000 < U32 - MIN_PAUSE_MS) :
    MIN_PAUSE_MS ≤ sub32 (now_ms t1) (sub32 (now_ms t0) MIN_PAUSE_MS) := by
  unfold now_ms sub32 U32 MIN_PAUSE_MS at *
  omega

/-! ## The fault override -/

/-- C1. Fault override: along every run of consecutive all-zero cycles, from
every controller state and whatever the other inputs are, (1) the fault
counter takes the value `min 255 (z + n)` after `n` cycles when it started at
`z ≤ 255`, so it saturates and never wraps; (2) from the third cycle of the
run on it is at or above `ZERO_CONFIRM_CYCLES`; (3) after every cycle at which
it is at or above `ZERO_CONFIRM_CYCLES` the pump is off, and that cycle wrote
0 to the pump pin if the pump was on and wrote nothing otherwise, so the pump
was not switched on. -/
theorem fault_override (m : Machine) (pre : List Cycle) (c : Cycle)
    (hz : ∀ x ∈ pre ++ [c], x.all_zero = true) :
    (m.s_pump.zero_streak ≤ 255 →
        (run m (pre ++ [c])).s_pump.zero_streak
          = min 255 (m.s_pump.zero_streak + (pre ++ [c]).length))
      ∧ (ZERO_CONFIRM_CYCLES ≤ (pre ++ [c]).length →
          ZERO_CONFIRM_CYCLES ≤ (run m (pre ++ [c])).s_pump.zero_streak)
      ∧ (ZERO_CONFIRM_CYCLES ≤ (run m (pre ++ [c])).s_pump.zero_streak →
          (run m (pre ++ [c])).s_pump.pump_on = false
            ∧ (run m (pre ++ [c])).gpio_log
                = (run m pre).gpio_log
                    ++ (if (run m pre).s_pump.pump_on
                        then [((run m pre).s_pump.pump_gpio, 0)] else [])) := by
  have hrun := run_all_zero_streak (pre ++ [c]) m hz
  refine ⟨?_, ?_, ?_⟩
  · intro hle
    rw [hrun]
    split_ifs <;> omega
  · intro hlen
    rw [hrun]
    unfold ZERO_CONFIRM_CYCLES at *
    split_ifs <;> omega
  · intro hthr
    rw [run_snoc] at hthr ⊢
    exact pump_step_fault_off (run m pre) (now_ms c.t_us) c.any_water c.all_dry c.all_zero hthr

theorem fault_override_witness :
    (∀ x ∈ List.replicate 299 (sample_cycle 0 true true true)
        ++ [sample_cycle 0 true true true], x.all_zero = true)
      ∧ (run (sample_machine true 0 0 false 0 0 0)
          (List.replicate 299 (sample_cycle 0 true true true)
            ++ [sample_cycle 0 true true true])).s_pump.zero_streak = 255
      ∧ (run (sample_machine true 0 0 false 0 0 0)
          (List.replicate 299 (sample_cycle 0 true true true)
            ++ [sample_cycle 0 true true true])).s_pump.pump_on = false := by
  have hz : ∀ x ∈ List.replicate 299 (sample_cycle 0 true true true)
      ++ [sample_cycle 0 true true true], x.all_zero = true := by
    intro x hx
    rcases List.mem_append.1 hx with h | h
    · rw [(List.mem_replicate.1 h).2]
      rfl
    · rw [List.mem_singleton.1 h]
      rfl
  have h := fault_override (sample_machine true 0 0 false 0 0 0)
    (List.replicate 299 (sample_cycle 0 true true true)) (sample_cycle 0 true true true) hz
  have hlen : (List.replicate 299 (sample_cycle 0 true true true)
      ++ [sample_cycle 0 true true true]).length = 300 := by
    rw [List.length_append, List.length_replicate, List.length_singleton]
  have h1 := h.1 (by decide)
  rw [hlen] at h1
  have h2 := h.2.1 (by rw [hlen]; decide)
  exact ⟨hz, h1, (h.2.2 h2).1⟩

/-! ## The maximum run time -/

/-- C2. Maximum run time: for every state, reading and step time, if the pump
is on after the step then `(now - pump_start_ms) mod 2^32` is at most
`MAX_PUMP_TIME_MS`; and a step entered with the pump on and an elapsed run
time above `MAX_PUMP_TIME_MS` ends with the pump off, whatever the level. -/
theorem max_run_time (m : Machine) (now : Nat) (aw ad az : Bool) :
    ((pump_step m now aw ad az).s_pump.pump_on = true →
        sub32 now (pump_step m now aw ad az).s_pump.pump_start_ms ≤ MAX_PUMP_TIME_MS)
      ∧ (m.s_pump.pump_on = true → MAX_PUMP_TIME_MS < sub32 now m.s_pump.pump_start_ms →
          (pump_step m now aw ad az).s_pump.pump_on = false) := by
  by_cases hf : ZERO_CONFIRM_CYCLES ≤ (update_zero_streak m.s_pump az).zero_streak
  · have hoff := (pump_step_fault_off m now aw ad az
      (by rw [pump_step_zero_streak]; exact hf)).1
    refine ⟨?_, fun _ _ => hoff⟩
    intro hon
    rw [hoff] at hon
    exact absurd hon (by decide)
  · have hlt : (update_zero_streak m.s_pump az).zero_streak < ZERO_CONFIRM_CYCLES := by omega
    by_cases hp : m.s_pump.pump_on = true
    · have h := pump_step_ok_on m now aw ad az hlt hp
      refine ⟨?_, ?_⟩
      · intro hon
        rw [h.1]
        exact (h.2.1.1 hon).1
      · intro _ hgt
        by_contra hne
        have hon : (pump_step m now aw ad az).s_pump.pump_on = true := by simpa using hne
        have := (h.2.1.1 hon).1
        omega
    · have hp2 : m.s_pump.pump_on = false := by simpa using hp
      have h := pump_step_ok_off m now aw ad az hlt hp2
      refine ⟨?_, fun hq => absurd hq hp⟩
      intro hon
      rw [h.2.2.1 hon, sub32_self]
      exact Nat.zero_le _

theorem max_run_time_witness :
    (pump_step (sample_machine true 1000 0 false 3 0 0) 4001 false true false).s_pump.pump_on
        = false
      ∧ sub32 4000
          (pump_step (sample_machine true 1000 0 false 3 0 0) 4000
            false true false).s_pump.pump_start_ms ≤ MAX_PUMP_TIME_MS :=
  ⟨(max_run_time (sample_machine true 1000 0 false 3 0 0) 4001 false true false).2
      (by decide) (by decide),
    (max_run_time (sample_machine true 1000 0 false 3 0 0) 4000 false true false).1
      (by decide)⟩

/-! ## The minimum rest -/

/-- C3. Minimum rest: in every sequence of steps `pre ++ c_off :: mid ++ [c_on]`
from every state, with arbitrary readings, in which the times from `c_off` to
`c_on` are non-decreasing and less than `2^32` ms apart, if the pump goes from
on to off in the step `c_off` (by timeout, by level full or by sensor fault)
and from off to on in the later step `c_on`, then `c_on` is at least
`MIN_PAUSE_MS` later than `c_off`. -/
theorem min_rest (m0 : Machine) (pre : List Cycle) (c_off : Cycle) (mid : List Cycle)
    (c_on : Cycle)
    (hs : List.Pairwise (fun a b : Cycle => a.t_ms ≤ b.t_ms) (c_off :: (mid ++ [c_on])))
    (hspan : c_on.t_ms - c_off.t_ms < U32)
    (h1 : (run m0 pre).s_pump.pump_on = true)
    (_h2 : (run m0 (pre ++ [c_off])).s_pump.pump_on = false)
    (h3 : (run m0 (pre ++ c_off :: mid)).s_pump.pump_on = false)
    (h4 : (run m0 (pre ++ c_off :: (mid ++ [c_on]))).s_pump.pump_on = true) :
    c_off.t_ms + MIN_PAUSE_MS ≤ c_on.t_ms := by
  rw [run_append, run_cons] at h3
  rw [run_append, run_cons, run_snoc] at h4
  rw [List.pairwise_cons, List.pairwise_append] at hs
  obtain ⟨hfirst, hmid, -, hlast⟩ := hs
  have hle : c_off.t_ms ≤ c_on.t_ms := hfirst c_on (by simp)
  -- the stamp written by the step `c_off`
  have hstart : RestStamp (cycle_step (run m0 pre) c_off) c_off.t_ms c_off.t_ms := by
    intro hoff
    refine ⟨c_off.t_ms, le_refl _, le_refl _, ?_⟩
    unfold cycle_step at hoff ⊢
    rw [pump_step_turn_off _ _ _ _ _ h1 hoff]
    rfl
  -- it is still there, or replaced by a later one, when `c_on` starts
  have hend := RestStamp.run mid (cycle_step (run m0 pre) c_off) c_off.t_ms c_off.t_ms
    c_on.t_ms hstart (le_refl _) hle hmid
    (fun c hc => ⟨hfirst c (by simp [hc]), hlast c hc c_on (by simp)⟩)
  obtain ⟨w, hw1, hw2, hw3⟩ := hend h3
  have hrest := pump_step_turn_on _ _ _ _ _ h3 h4
  rw [hw3, now_ms_eq] at hrest
  have hsub : sub32 (c_on.t_us / 1000 % U32) (w % U32) = c_on.t_us / 1000 - w :=
    sub32_of_le (c_on.t_us / 1000) w hw2 (by unfold Cycle.t_ms at *; omega)
  rw [hsub] at hrest
  unfold Cycle.t_ms at *
  omega

theorem min_rest_witness :
    (sample_cycle 64001000 false true false).t_ms + MIN_PAUSE_MS
      ≤ (sample_cycle 124001000 false true false).t_ms :=
  min_rest (sample_machine false 0 0 false 3 0 0)
    [sample_cycle 60000000 false true false]
    (sample_cycle 64001000 false true false)
    [sample_cycle 90000000 false true false]
    (sample_cycle 124001000 false true false)
    (by decide) (by decide) (by decide) (by decide) (by decide) (by decide)

/-! ## The decision to switch the pump on -/

/-- C4. Exact condition of the ON decision: a step changes the pump from off
to on if and only if the pump was off, the fault counter after its update is
below `ZERO_CONFIRM_CYCLES`, `(now - last_water_ms) mod 2^32` is at least
`MIN_PAUSE_MS`, and `stored_is_full` after the debounce of this step is false;
when it does, `pump_start_ms` becomes `now` and 1 is written to the pump
pin. -/
theorem on_decision (m : Machine) (now : Nat) (aw ad az : Bool) :
    ((m.s_pump.pump_on = false ∧ (pump_step m now aw ad az).s_pump.pump_on = true) ↔
        (m.s_pump.pump_on = false
          ∧ (pump_step m now aw ad az).s_pump.zero_streak < ZERO_CONFIRM_CYCLES
          ∧ MIN_PAUSE_MS ≤ sub32 now m.s_pump.last_water_ms
          ∧ (pump_step m now aw ad az).s_pump.stored_is_full = false))
      ∧ (m.s_pump.pump_on = false → (pump_step m now aw ad az).s_pump.pump_on = true →
          (pump_step m now aw ad az).s_pump.pump_start_ms = now
            ∧ (pump_step m now aw ad az).gpio_log
                = m.gpio_log ++ [(m.s_pump.pump_gpio, 1)]) := by
  by_cases hf : ZERO_CONFIRM_CYCLES ≤ (update_zero_streak m.s_pump az).zero_streak
  · have hz : ZERO_CONFIRM_CYCLES ≤ (pump_step m now aw ad az).s_pump.zero_streak := by
      rw [pump_step_zero_streak]
      exact hf
    have hoff := (pump_step_fault_off m now aw ad az hz).1
    refine ⟨⟨?_, ?_⟩, ?_⟩
    · rintro ⟨_, hon⟩
      rw [hoff] at hon
      exact absurd hon (by decide)
    · rintro ⟨_, hlt, _⟩
      omega
    · intro _ hon
      rw [hoff] at hon
      exact absurd hon (by decide)
  · have hlt : (update_zero_streak m.s_pump az).zero_streak < ZERO_CONFIRM_CYCLES := by omega
    have hz : (pump_step m now aw ad az).s_pump.zero_streak < ZERO_CONFIRM_CYCLES := by
      rw [pump_step_zero_streak]
      exact hlt
    refine ⟨⟨?_, ?_⟩, ?_⟩
    · rintro ⟨hp, hon⟩
      have h := pump_step_ok_off m now aw ad az hlt hp
      exact ⟨hp, hz, (h.2.1.1 hon).1, (h.2.1.1 hon).2⟩
    · rintro ⟨hp, _, hrest, hfull⟩
      have h := pump_step_ok_off m now aw ad az hlt hp
      exact ⟨hp, h.2.1.2 ⟨hrest, hfull⟩⟩
    · intro hp hon
      have h := pump_step_ok_off m now aw ad az hlt hp
      refine ⟨h.2.2.1 hon, ?_⟩
      rw [pump_step_ok_off_log m now aw ad az hlt hp, hon]
      rfl

theorem on_decision_witness :
    (pump_step (sample_machine false 0 1000 false 3 0 0) 61000
        false true false).s_pump.pump_start_ms = 61000
      ∧ (pump_step (sample_machine false 0 1000 false 3 0 0) 61000 false true false).gpio_log
          = [(26, 1)] :=
  (on_decision (sample_machine false 0 1000 false 3 0 0) 61000 false true false).2
    (by decide) (by decide)

/-! ## The level debounce -/

/-- C5. Wet debounce: from every state with `stored_is_full = false` and
`wet_streak = 0`, two consecutive cycles whose reading of `get_water_state`
has `any_water` leave `stored_is_full` false after the first cycle and true
after the second; and in every step, whatever the state and the reading,
`stored_is_full` goes from false to true only if the step leaves
`wet_streak` at `WET_CONFIRM_CYCLES`. -/
theorem wet_debounce (m : Machine) (hfull : m.s_pump.stored_is_full = false)
    (hwet : m.s_pump.wet_streak = 0) (t1 t2 : Nat) (a1 b1 a2 b2 : Option ℚ)
    (hw1 : (get_water_state a1 b1).any_water = true)
    (hw2 : (get_water_state a2 b2).any_water = true) :
    (pump_step_measured m t1 a1 b1).s_pump.stored_is_full = false
      ∧ (pump_step_measured (pump_step_measured m t1 a1 b1) t2 a2 b2).s_pump.stored_is_full
          = true
      ∧ (∀ (n : Machine) (now : Nat) (aw ad az : Bool), n.s_pump.stored_is_full = false →
          (pump_step n now aw ad az).s_pump.stored_is_full = true →
          (pump_step n now aw ad az).s_pump.wet_streak = WET_CONFIRM_CYCLES) := by
  have hz1 := any_water_not_all_zero a1 b1 hw1
  have hz2 := any_water_not_all_zero a2 b2 hw2
  unfold pump_step_measured
  simp only [hw1, hw2, hz1, hz2]
  have hA := pump_step_level m (now_ms t1) true (get_water_state a1 b1).all_dry false
  have hAz := pump_step_zero m (now_ms t1) true (get_water_state a1 b1).all_dry false
  simp only [hAz, hfull, hwet, inc8_zero, ZERO_CONFIRM_CYCLES, WET_CONFIRM_CYCLES,
    DRY_CONFIRM_CYCLES, if_true, Bool.false_eq_true, if_false, Nat.not_succ_le_zero,
    Nat.reduceLeDiff] at hA
  have hB := pump_step_level
    (pump_step m (now_ms t1) true (get_water_state a1 b1).all_dry false)
    (now_ms t2) true (get_water_state a2 b2).all_dry false
  have hBz := pump_step_zero
    (pump_step m (now_ms t1) true (get_water_state a1 b1).all_dry false)
    (now_ms t2) true (get_water_state a2 b2).all_dry false
  simp only [hBz, hA.1, hA.2.1, hA.2.2, inc8_one, ZERO_CONFIRM_CYCLES, WET_CONFIRM_CYCLES,
    DRY_CONFIRM_CYCLES, if_true, Bool.false_eq_true, if_false, Nat.not_succ_le_zero,
    Nat.reduceLeDiff, le_refl] at hB
  refine ⟨hA.1, hB.1, ?_⟩
  intro n now aw ad az hn hflip
  have hC := pump_step_level n now aw ad az
  rw [hC.1] at hflip
  rw [hC.2.1]
  split_ifs at hflip ⊢ <;> simp_all

theorem wet_debounce_witness :
    (pump_step_measured (sample_machine false 0 0 false 3 0 0) 1000000
        (some 2) (some 1)).s_pump.stored_is_full = false
      ∧ (pump_step_measured
          (pump_step_measured (sample_machine false 0 0 false 3 0 0) 1000000 (some 2) (some 1))
          2000000 (some 1) (some 3)).s_pump.stored_is_full = true :=
  have h := wet_debounce (sample_machine false 0 0 false 3 0 0) rfl rfl 1000000 2000000
    (some 2) (some 1) (some 1) (some 3)
    (by norm_num [get_water_state, classify_voltage, WET_VOLTAGE, DRY_VOLTAGE])
    (by norm_num [get_water_state, classify_voltage, WET_VOLTAGE, DRY_VOLTAGE])
  ⟨h.1, h.2.1⟩

/-- C6, as stated, fails: from a full state with `dry_streak = 0` and
`zero_streak = 0`, three consecutive cycles with both voltages at 0 V are
all-dry cycles (`all_dry` true, `any_water` false), yet `stored_is_full` is
still true after the third, which is a fault cycle. -/
theorem dry_debounce_counterexample :
    (sample_machine false 0 0 true 0 0 0).s_pump.stored_is_full = true
      ∧ (sample_machine false 0 0 true 0 0 0).s_pump.dry_streak = 0
      ∧ (sample_machine false 0 0 true 0 0 0).s_pump.zero_streak = 0
      ∧ get_water_state (some 0) (some 0)
          = { any_water := false, all_dry := true, all_zero := true }
      ∧ (pump_step_measured
          (pump_step_measured
            (pump_step_measured (sample_machine false 0 0 true 0 0 0) 1000000 (some 0) (some 0))
            2000000 (some 0) (some 0))
          3000000 (some 0) (some 0)).s_pump.stored_is_full = true := by
  have hg : get_water_state (some 0) (some 0)
      = { any_water := false, all_dry := true, all_zero := true } := by
    norm_num [get_water_state, classify_voltage, is_zero_voltage, WET_VOLTAGE, DRY_VOLTAGE,
      ZERO_VOLTAGE]
    decide
  refine ⟨rfl, rfl, rfl, hg, ?_⟩
  unfold pump_step_measured
  rw [hg]
  decide

/-- C6, amended. Dry debounce: from every state with `stored_is_full = true`,
`dry_streak = 0` and `zero_streak = 0`, three consecutive all-dry cycles
(`all_dry` true, `any_water` false, `all_zero` being `z1`, `z2`, `z3`) leave
`stored_is_full` true after the first and after the second cycle; after the
third it is false unless all three cycles were all-zero, in which case the
third is a fault cycle, which skips the debounce, and it is still true. -/
theorem dry_debounce (m : Machine) (hfull : m.s_pump.stored_is_full = true)
    (hdry : m.s_pump.dry_streak = 0) (hzero : m.s_pump.zero_streak = 0)
    (now1 now2 now3 : Nat) (z1 z2 z3 : Bool) :
    (pump_step m now1 false true z1).s_pump.stored_is_full = true
      ∧ (pump_step (pump_step m now1 false true z1) now2 false true z2).s_pump.stored_is_full
          = true
      ∧ (pump_step (pump_step (pump_step m now1 false true z1) now2 false true z2)
          now3 false true z3).s_pump.stored_is_full = (z1 && z2 && z3) := by
  have hA := pump_step_level m now1 false true z1
  have hAz := pump_step_zero m now1 false true z1
  have hB := pump_step_level (pump_step m now1 false true z1) now2 false true z2
  have hBz := pump_step_zero (pump_step m now1 false true z1) now2 false true z2
  have hC := pump_step_level (pump_step (pump_step m now1 false true z1) now2 false true z2)
    now3 false true z3
  have hCz := pump_step_zero (pump_step (pump_step m now1 false true z1) now2 false true z2)
    now3 false true z3
  rw [hzero] at hAz
  rw [hAz, hfull, hdry, inc8_zero] at hA
  rw [hAz] at hBz
  cases z1 <;> cases z2 <;> cases z3 <;>
    simp [ZERO_CONFIRM_CYCLES, WET_CONFIRM_CYCLES, DRY_CONFIRM_CYCLES] at hA hBz <;>
    simp [hBz, hA, inc8_one, ZERO_CONFIRM_CYCLES, WET_CONFIRM_CYCLES, DRY_CONFIRM_CYCLES]
      at hB hCz <;>
    simp [hCz, hB, inc8_two, ZERO_CONFIRM_CYCLES, WET_CONFIRM_CYCLES, DRY_CONFIRM_CYCLES]
      at hC <;>
    simp [hA, hB, hC]

theorem dry_debounce_witness :
    (pump_step (pump_step (pump_step (sample_machine false 0 0 true 0 0 0)
        1000 false true true) 2000 false true false) 3000 false true true).s_pump.stored_is_full
      = (true && false && true) :=
  (dry_debounce (sample_machine false 0 0 true 0 0 0) rfl rfl rfl 1000 2000 3000
    true false true).2.2

/-- C7. Ambiguous reading: from every state, a step whose reading is ambiguous
(`any_water`, `all_dry` and `all_zero` all false) sets `wet_streak` and
`dry_streak` to 0 and leaves `stored_is_full` unchanged; the progress towards
a flip is lost: whatever the next cycle reads, `stored_is_full` is still
unchanged after it, and whatever the next two cycles read, a full level is
still full after them. -/
theorem ambiguous_reading (m : Machine) (now : Nat) :
    (pump_step m now false false false).s_pump.wet_streak = 0
      ∧ (pump_step m now false false false).s_pump.dry_streak = 0
      ∧ (pump_step m now false false false).s_pump.stored_is_full = m.s_pump.stored_is_full
      ∧ (∀ (now2 : Nat) (aw ad az : Bool),
          (pump_step (pump_step m now false false false) now2 aw ad az).s_pump.stored_is_full
            = m.s_pump.stored_is_full)
      ∧ (∀ (now2 now3 : Nat) (aw2 ad2 az2 aw3 ad3 az3 : Bool),
          m.s_pump.stored_is_full = true →
          (pump_step (pump_step (pump_step m now false false false) now2 aw2 ad2 az2)
            now3 aw3 ad3 az3).s_pump.stored_is_full = true) := by
  have hA := pump_step_level m now false false false
  have hAz := pump_step_zero m now false false false
  simp [ZERO_CONFIRM_CYCLES, WET_CONFIRM_CYCLES, DRY_CONFIRM_CYCLES] at hAz
  simp [hAz, ZERO_CONFIRM_CYCLES, WET_CONFIRM_CYCLES, DRY_CONFIRM_CYCLES] at hA
  refine ⟨hA.2.1, hA.2.2, hA.1, ?_, ?_⟩
  · intro now2 aw ad az
    have hB := pump_step_level (pump_step m now false false false) now2 aw ad az
    rw [hB.1, hA.1, hA.2.1, hA.2.2]
    cases aw <;> cases ad <;>
      simp [inc8_zero, ZERO_CONFIRM_CYCLES, WET_CONFIRM_CYCLES, DRY_CONFIRM_CYCLES]
  · intro now2 now3 aw2 ad2 az2 aw3 ad3 az3 hfull
    have hB := pump_step_level (pump_step m now false false false) now2 aw2 ad2 az2
    have hC := pump_step_level
      (pump_step (pump_step m now false false false) now2 aw2 ad2 az2) now3 aw3 ad3 az3
    rw [hA.1, hA.2.1, hA.2.2, hfull] at hB
    have hB1 : (pump_step (pump_step m now false false false) now2 aw2 ad2
        az2).s_pump.stored_is_full = true := by
      rw [hB.1]
      cases aw2 <;> cases ad2 <;>
        simp [inc8_zero, ZERO_CONFIRM_CYCLES, WET_CONFIRM_CYCLES, DRY_CONFIRM_CYCLES]
    have hB3 : (pump_step (pump_step m now false false false) now2 aw2 ad2
        az2).s_pump.dry_streak ≤ 1 := by
      rw [hB.2.2]
      cases aw2 <;> cases ad2 <;>
        simp [inc8_zero, ZERO_CONFIRM_CYCLES, WET_CONFIRM_CYCLES, DRY_CONFIRM_CYCLES]
      all_goals split_ifs <;> omega
    rw [hC.1, hB1]
    have hinc : inc8 (pump_step (pump_step m now false false false) now2 aw2 ad2
        az2).s_pump.dry_streak < DRY_CONFIRM_CYCLES := by
      unfold inc8 U8 DRY_CONFIRM_CYCLES
      omega
    have hnd : ¬ DRY_CONFIRM_CYCLES
        ≤ (if aw3 = true then 0
          else if ad3 = true then
            inc8 (pump_step (pump_step m now false false false) now2 aw2 ad2
              az2).s_pump.dry_streak
          else 0) := by
      unfold DRY_CONFIRM_CYCLES at hinc ⊢
      split_ifs <;> omega
    rw [if_neg hnd]
    split_ifs <;> rfl

theorem ambiguous_reading_witness :
    (pump_step (pump_step (pump_step (sample_machine false 0 0 true 2 0 0)
        1000 false false false) 2000 false true false) 3000 false true
        false).s_pump.stored_is_full = true :=
  (ambiguous_reading (sample_machine false 0 0 true 2 0 0) 1000).2.2.2.2
    2000 3000 false true false false true false rfl

/-! ## The streak invariant -/

/-- C8. Streak exclusion: in every state reachable from the state set by
`pump_node_init` through any number of `pump_step` calls, with arbitrary
readings and times, `wet_streak` and `dry_streak` are not both nonzero. -/
theorem streak_exclusion (m : Machine) (h : Reachable m) :
    ¬ (m.s_pump.wet_streak ≠ 0 ∧ m.s_pump.dry_streak ≠ 0) := by
  have key : m.s_pump.wet_streak = 0 ∨ m.s_pump.dry_streak = 0 := by
    induction h with
    | init m0 pins t_us m h0 hinit =>
      left
      rw [pump_node_init_state m0 pins t_us m h0 hinit]
    | step m c _ ih =>
      unfold cycle_step
      have hL := pump_step_level m (now_ms c.t_us) c.any_water c.all_dry c.all_zero
      rw [hL.2.1, hL.2.2]
      by_cases hf : ZERO_CONFIRM_CYCLES
          ≤ (pump_step m (now_ms c.t_us) c.any_water c.all_dry c.all_zero).s_pump.zero_streak
      · rw [if_pos hf, if_pos hf]
        exact ih
      · rw [if_neg hf, if_neg hf]
        cases c.any_water
        · left
          simp [WET_CONFIRM_CYCLES]
        · right
          simp [DRY_CONFIRM_CYCLES]
  rintro ⟨hw, hd⟩
  rcases key with k | k
  · exact hw k
  · exact hd k

theorem streak_exclusion_witness :
    ¬ ((cycle_step
          { s_pump :=
              { level_a_gpio := 32, level_b_gpio := 33, pump_gpio := 26, inited := true,
                pump_on := false, pump_start_ms := 0,
                last_water_ms := sub32 (now_ms 0) MIN_PAUSE_MS, stored_is_full := false,
                dry_streak := DRY_CONFIRM_CYCLES, wet_streak := 0, zero_streak := 0,
                last_level_percent := 0 }
            gpio_log := [(26, 0), (26, 1), (26, 0)] }
          (sample_cycle 1000000 true false false)).s_pump.wet_streak ≠ 0
        ∧ (cycle_step
          { s_pump :=
              { level_a_gpio := 32, level_b_gpio := 33, pump_gpio := 26, inited := true,
                pump_on := false, pump_start_ms := 0,
                last_water_ms := sub32 (now_ms 0) MIN_PAUSE_MS, stored_is_full := false,
                dry_streak := DRY_CONFIRM_CYCLES, wet_streak := 0, zero_streak := 0,
                last_level_percent := 0 }
            gpio_log := [(26, 0), (26, 1), (26, 0)] }
          (sample_cycle 1000000 true false false)).s_pump.dry_streak ≠ 0) :=
  streak_exclusion _
    (Reachable.step _ (sample_cycle 1000000 true false false)
      (Reachable.init
        { s_pump :=
            { level_a_gpio := 0, level_b_gpio := 0, pump_gpio := 0, inited := false,
              pump_on := false, pump_start_ms := 0, last_water_ms := 0,
              stored_is_full := false, dry_streak := 0, wet_streak := 0, zero_streak := 0,
              last_level_percent := 0 }
          gpio_log := [] }
        sample_pins 0 _ rfl rfl))

/-! ## Scenarios -/

/-- C9, as stated, fails: from a state with the pump off, no fault, the level
not full, `wet_streak = 0` and the rest interval elapsed at both cycles, the
first any-water cycle switches the pump on. -/
theorem scenario_A_counterexample :
    (sample_machine false 0 0 false 0 0 0).s_pump.pump_on = false
      ∧ (sample_machine false 0 0 false 0 0 0).s_pump.zero_streak = 0
      ∧ (sample_machine false 0 0 false 0 0 0).s_pump.stored_is_full = false
      ∧ (sample_machine false 0 0 false 0 0 0).s_pump.wet_streak = 0
      ∧ MIN_PAUSE_MS ≤ sub32 60000 (sample_machine false 0 0 false 0 0 0).s_pump.last_water_ms
      ∧ MIN_PAUSE_MS ≤ sub32 61000 (sample_machine false 0 0 false 0 0 0).s_pump.last_water_ms
      ∧ (pump_step (sample_machine false 0 0 false 0 0 0) 60000
          true false false).s_pump.pump_on = true := by
  decide

/-- C9, amended. Scenario A: from every state with the pump off, no fault
(`zero_streak = 0`), `stored_is_full = false`, `wet_streak = 0` and the rest
interval elapsed at the first cycle, two consecutive any-water cycles switch
the pump on in the first cycle, the level being not yet confirmed full, and
off in the second, where `stored_is_full` becomes true and `last_water_ms` is
stamped. -/
theorem scenario_A (m : Machine) (hp : m.s_pump.pump_on = false)
    (hz : m.s_pump.zero_streak = 0) (hfull : m.s_pump.stored_is_full = false)
    (hwet : m.s_pump.wet_streak = 0) (now1 now2 : Nat) (ad1 az1 ad2 az2 : Bool)
    (hrest : MIN_PAUSE_MS ≤ sub32 now1 m.s_pump.last_water_ms) :
    (pump_step m now1 true ad1 az1).s_pump.pump_on = true
      ∧ (pump_step m now1 true ad1 az1).s_pump.pump_start_ms = now1
      ∧ (pump_step m now1 true ad1 az1).s_pump.stored_is_full = false
      ∧ (pump_step (pump_step m now1 true ad1 az1) now2 true ad2 az2).s_pump.pump_on = false
      ∧ (pump_step (pump_step m now1 true ad1 az1) now2 true ad2 az2).s_pump.last_water_ms
          = now2
      ∧ (pump_step (pump_step m now1 true ad1 az1) now2 true ad2 az2).s_pump.stored_is_full
          = true := by
  have hAz := pump_step_zero m now1 true ad1 az1
  rw [hz] at hAz
  have hAlt : (pump_step m now1 true ad1 az1).s_pump.zero_streak ≤ 1 := by
    rw [hAz]
    split_ifs <;> omega
  have hA := pump_step_level m now1 true ad1 az1
  have hnf1 : ¬ ZERO_CONFIRM_CYCLES ≤ (pump_step m now1 true ad1 az1).s_pump.zero_streak := by
    unfold ZERO_CONFIRM_CYCLES
    omega
  rw [if_neg hnf1, if_neg hnf1, if_neg hnf1, hfull, hwet] at hA
  simp [inc8_zero, WET_CONFIRM_CYCLES, DRY_CONFIRM_CYCLES] at hA
  have hu1 : (update_zero_streak m.s_pump az1).zero_streak < ZERO_CONFIRM_CYCLES := by
    rw [← pump_step_zero_streak m now1 true ad1 az1]
    unfold ZERO_CONFIRM_CYCLES
    omega
  have hoff := pump_step_ok_off m now1 true ad1 az1 hu1 hp
  have hon1 : (pump_step m now1 true ad1 az1).s_pump.pump_on = true :=
    hoff.2.1.2 ⟨hrest, hA.1⟩
  have hBz := pump_step_zero (pump_step m now1 true ad1 az1) now2 true ad2 az2
  have hBlt : (pump_step (pump_step m now1 true ad1 az1) now2 true ad2
      az2).s_pump.zero_streak ≤ 2 := by
    rw [hBz]
    split_ifs <;> omega
  have hnf2 : ¬ ZERO_CONFIRM_CYCLES
      ≤ (pump_step (pump_step m now1 true ad1 az1) now2 true ad2 az2).s_pump.zero_streak := by
    unfold ZERO_CONFIRM_CYCLES
    omega
  have hB := pump_step_level (pump_step m now1 true ad1 az1) now2 true ad2 az2
  rw [if_neg hnf2, if_neg hnf2, if_neg hnf2, hA.1, hA.2.1] at hB
  simp [inc8_one, WET_CONFIRM_CYCLES, DRY_CONFIRM_CYCLES] at hB
  have hu2 : (update_zero_streak (pump_step m now1 true ad1 az1).s_pump az2).zero_streak
      < ZERO_CONFIRM_CYCLES := by
    rw [← pump_step_zero_streak (pump_step m now1 true ad1 az1) now2 true ad2 az2]
    unfold ZERO_CONFIRM_CYCLES
    omega
  have hon := pump_step_ok_on (pump_step m now1 true ad1 az1) now2 true ad2 az2 hu2 hon1
  have hoff2 : (pump_step (pump_step m now1 true ad1 az1) now2 true ad2
      az2).s_pump.pump_on = false := by
    by_contra hne
    have h2 : (pump_step (pump_step m now1 true ad1 az1) now2 true ad2
        az2).s_pump.pump_on = true := by simpa using hne
    have h3 := (hon.2.1.1 h2).2
    rw [hB.1] at h3
    exact absurd h3 (by decide)
  exact ⟨hon1, hoff.2.2.1 hon1, hA.1, hoff2, hon.2.2.2 hoff2, hB.1⟩

theorem scenario_A_witness :
    (pump_step (sample_machine false 0 0 false 0 0 0) 60000 true false false).s_pump.pump_on
        = true
      ∧ (pump_step (pump_step (sample_machine false 0 0 false 0 0 0) 60000 true false false)
          61000 true false false).s_pump.pump_on = false
      ∧ (pump_step (pump_step (sample_machine false 0 0 false 0 0 0) 60000 true false false)
          61000 true false false).s_pump.stored_is_full = true :=
  have h := scenario_A (sample_machine false 0 0 false 0 0 0) rfl rfl rfl rfl 60000 61000
    false false false false (by decide)
  ⟨h.1, h.2.2.2.1, h.2.2.2.2.2⟩

/-- C10. Scenario D: from every state with the pump on and `zero_streak = 0`,
three consecutive all-zero cycles `c1`, `c2`, `c3` leave the pump off after
the third, with the fault confirmed and `last_water_ms` holding the time of
one of these three cycles; a fourth cycle `c4` with a dry, non-zero reading,
less than `MIN_PAUSE_MS` after `c1` (the times of the four cycles being
non-decreasing), clears the fault and leaves the pump off and `last_water_ms`
as it was, whatever `stored_is_full` is. -/
theorem scenario_D (m : Machine) (hp : m.s_pump.pump_on = true)
    (hz : m.s_pump.zero_streak = 0) (c1 c2 c3 c4 : Cycle)
    (h1 : c1.all_zero = true) (h2 : c2.all_zero = true) (h3 : c3.all_zero = true)
    (_h4d : c4.all_dry = true) (h4z : c4.all_zero = false)
    (t12 : c1.t_ms ≤ c2.t_ms) (t23 : c2.t_ms ≤ c3.t_ms) (t34 : c3.t_ms ≤ c4.t_ms)
    (hsoon : c4.t_ms < c1.t_ms + MIN_PAUSE_MS) :
    (run m [c1, c2, c3]).s_pump.pump_on = false
      ∧ (run m [c1, c2, c3]).s_pump.zero_streak = ZERO_CONFIRM_CYCLES
      ∧ ((run m [c1, c2, c3]).s_pump.last_water_ms = now_ms c1.t_us
          ∨ (run m [c1, c2, c3]).s_pump.last_water_ms = now_ms c2.t_us
          ∨ (run m [c1, c2, c3]).s_pump.last_water_ms = now_ms c3.t_us)
      ∧ (run m [c1, c2, c3, c4]).s_pump.pump_on = false
      ∧ (run m [c1, c2, c3, c4]).s_pump.zero_streak = 0
      ∧ (run m [c1, c2, c3, c4]).s_pump.last_water_ms
          = (run m [c1, c2, c3]).s_pump.last_water_ms := by
  have hzall : ∀ x ∈ [c1, c2, c3], x.all_zero = true := by
    intro x hx
    simp only [List.mem_cons, List.mem_singleton, List.not_mem_nil, or_false] at hx
    rcases hx with rfl | rfl | rfl <;> assumption
  have hz3 : (run m [c1, c2, c3]).s_pump.zero_streak = ZERO_CONFIRM_CYCLES := by
    rw [run_all_zero_streak [c1, c2, c3] m hzall, hz]
    rfl
  have hrun3 : run m [c1, c2, c3] = cycle_step (cycle_step (cycle_step m c1) c2) c3 := rfl
  have hrun4 : run m [c1, c2, c3, c4] = cycle_step (run m [c1, c2, c3]) c4 := rfl
  unfold Cycle.t_ms at t12 t23 t34 hsoon
  -- the third cycle is a fault cycle
  have hoff3 : (run m [c1, c2, c3]).s_pump.pump_on = false := by
    have := hz3
    rw [hrun3] at this ⊢
    unfold cycle_step at this ⊢
    exact (pump_step_fault_off _ _ _ _ _ (le_of_eq this.symm)).1
  -- where the stamp comes from
  have hstamp : (run m [c1, c2, c3]).s_pump.last_water_ms = now_ms c1.t_us
      ∨ (run m [c1, c2, c3]).s_pump.last_water_ms = now_ms c2.t_us
      ∨ (run m [c1, c2, c3]).s_pump.last_water_ms = now_ms c3.t_us := by
    rw [hrun3] at hoff3 ⊢
    by_cases hon1 : (cycle_step m c1).s_pump.pump_on = true
    · by_cases hon2 : (cycle_step (cycle_step m c1) c2).s_pump.pump_on = true
      · right
        right
        unfold cycle_step at hon2 hoff3 ⊢
        exact pump_step_turn_off _ _ _ _ _ hon2 hoff3
      · have hoff2 : (cycle_step (cycle_step m c1) c2).s_pump.pump_on = false := by
          simpa using hon2
        right
        left
        unfold cycle_step at hon1 hoff2 ⊢
        rw [pump_step_off_last _ _ _ _ _ hoff2]
        exact pump_step_turn_off _ _ _ _ _ hon1 hoff2
    · have hoff1 : (cycle_step m c1).s_pump.pump_on = false := by simpa using hon1
      left
      unfold cycle_step at hoff1 ⊢
      have hl1 := pump_step_turn_off m _ c1.any_water c1.all_dry c1.all_zero hp hoff1
      have hoff2 := pump_step_rest_lockout _ (now_ms c2.t_us) c2.any_water c2.all_dry
        c2.all_zero hoff1 (by
          rw [hl1]
          exact sub32_now_ms_lt c1.t_us c2.t_us t12 (by omega))
      rw [pump_step_off_last _ _ _ _ _ hoff2, pump_step_off_last _ _ _ _ _ hoff1]
      exact hl1
  -- the fourth cycle is locked out
  have hlock : sub32 (now_ms c4.t_us) (run m [c1, c2, c3]).s_pump.last_water_ms
      < MIN_PAUSE_MS := by
    rcases hstamp with h | h | h <;> rw [h]
    · exact sub32_now_ms_lt c1.t_us c4.t_us (by omega) (by omega)
    · exact sub32_now_ms_lt c2.t_us c4.t_us (by omega) (by omega)
    · exact sub32_now_ms_lt c3.t_us c4.t_us (by omega) (by omega)
  refine ⟨hoff3, hz3, hstamp, ?_, ?_, ?_⟩
  · rw [hrun4]
    exact pump_step_rest_lockout _ _ _ _ _ hoff3 hlock
  · rw [hrun4]
    unfold cycle_step
    rw [pump_step_zero, h4z]
    rfl
  · rw [hrun4]
    exact pump_step_off_last _ _ _ _ _ hoff3

theorem scenario_D_witness :
    (run (sample_machine true 0 0 false 3 0 0)
        [sample_cycle 1000000 false true true, sample_cycle 2000000 false true true,
          sample_cycle 3000000 false true true,
          sample_cycle 4000000 false true false]).s_pump.pump_on = false
      ∧ (run (sample_machine true 0 0 false 3 0 0)
        [sample_cycle 1000000 false true true, sample_cycle 2000000 false true true,
          sample_cycle 3000000 false true true,
          sample_cycle 4000000 false true false]).s_pump.stored_is_full = false :=
  ⟨(scenario_D (sample_machine true 0 0 false 3 0 0) rfl rfl
      (sample_cycle 1000000 false true true) (sample_cycle 2000000 false true true)
      (sample_cycle 3000000 false true true) (sample_cycle 4000000 false true false)
      rfl rfl rfl rfl rfl (by decide) (by decide) (by decide) (by decide)).2.2.2.1,
    by decide⟩

/-! ## The level sensor -/

/-- C11, as stated, fails: ten reads of the code 1365 make `measure_voltage`
return the float `1.10f`, which is above 1.10 and which the comparison of
line 97 classifies as DRY. -/
theorem wet_dry_aggregation_counterexample :
    measure_voltage (fun _ => some 1365) = some ((9227469 : ℚ) / 8388608)
      ∧ (110 : ℚ) / 100 < (9227469 : ℚ) / 8388608
      ∧ classify_voltage_f32 (some ((9227469 : ℚ) / 8388608)) = water_state_t.WATER_DRY :=
  ⟨measure_voltage_dry_threshold, by norm_num,
    (classify_f32_dry_iff _).2 (le_of_eq rfl)⟩

/-- C11, amended. Wet and dry aggregation: on the exact value `u` of the
measured float, `classify_voltage` returns WET iff `u` is at least the
binary32 value of `1.90f` (15938355 / 8388608, just below 1.90), DRY iff `u`
is at most the binary32 value of `1.10f` (9227469 / 8388608, just above 1.10)
and UNKNOWN otherwise; so every `u ≥ 1.90` is WET and every `u ≤ 1.10` is DRY.
`any_water` is true iff at least one direction is WET and `all_dry` is true
iff both directions are DRY; so for every pair with both directions at or
above 1.90 V, `any_water` is true and `all_dry` is false. -/
theorem wet_dry_aggregation (u_ab u_ba : Option ℚ) :
    (∀ v : ℚ,
        (classify_voltage_f32 (some v) = water_state_t.WATER_WET
            ↔ (15938355 : ℚ) / 8388608 ≤ v)
          ∧ (classify_voltage_f32 (some v) = water_state_t.WATER_DRY
              ↔ v ≤ (9227469 : ℚ) / 8388608)
          ∧ (classify_voltage_f32 (some v) = water_state_t.WATER_UNKNOWN
              ↔ ¬ (15938355 : ℚ) / 8388608 ≤ v ∧ ¬ v ≤ (9227469 : ℚ) / 8388608))
      ∧ (∀ v : ℚ, (190 : ℚ) / 100 ≤ v →
          classify_voltage_f32 (some v) = water_state_t.WATER_WET)
      ∧ (∀ v : ℚ, v ≤ (110 : ℚ) / 100 →
          classify_voltage_f32 (some v) = water_state_t.WATER_DRY)
      ∧ ((get_water_state_f32 u_ab u_ba).any_water = true
          ↔ classify_voltage_f32 u_ab = water_state_t.WATER_WET
            ∨ classify_voltage_f32 u_ba = water_state_t.WATER_WET)
      ∧ ((get_water_state_f32 u_ab u_ba).all_dry = true
          ↔ classify_voltage_f32 u_ab = water_state_t.WATER_DRY
            ∧ classify_voltage_f32 u_ba = water_state_t.WATER_DRY)
      ∧ (∀ a b : ℚ, (190 : ℚ) / 100 ≤ a → (190 : ℚ) / 100 ≤ b →
          (get_water_state_f32 (some a) (some b)).any_water = true
            ∧ (get_water_state_f32 (some a) (some b)).all_dry = false) := by
  have hwet : ∀ v : ℚ, (190 : ℚ) / 100 ≤ v →
      classify_voltage_f32 (some v) = water_state_t.WATER_WET := by
    intro v hv
    refine (classify_f32_wet_iff v).2 ?_
    unfold WET_VOLTAGE_F32
    have : (15938355 : ℚ) / 8388608 ≤ 190 / 100 := by norm_num
    exact le_trans this hv
  have hdry : ∀ v : ℚ, v ≤ (110 : ℚ) / 100 →
      classify_voltage_f32 (some v) = water_state_t.WATER_DRY := by
    intro v hv
    refine (classify_f32_dry_iff v).2 ?_
    unfold DRY_VOLTAGE_F32
    have : (110 : ℚ) / 100 ≤ 9227469 / 8388608 := by norm_num
    exact le_trans hv this
  refine ⟨fun v => ⟨classify_f32_wet_iff v, classify_f32_dry_iff v,
      classify_f32_unknown_iff v⟩, hwet, hdry,
    get_water_state_f32_any_water u_ab u_ba, get_water_state_f32_all_dry u_ab u_ba, ?_⟩
  intro a b ha _
  have hwa := hwet a ha
  refine ⟨(get_water_state_f32_any_water _ _).2 (Or.inl hwa), ?_⟩
  cases hd : (get_water_state_f32 (some a) (some b)).all_dry with
  | false => rfl
  | true =>
    have := ((get_water_state_f32_all_dry _ _).1 hd).1
    rw [hwa] at this
    exact absurd this (by decide)

theorem wet_dry_aggregation_witness :
    (get_water_state_f32 (some 2) (some (5 / 2))).any_water = true
      ∧ (get_water_state_f32 (some 2) (some (5 / 2))).all_dry = false :=
  (wet_dry_aggregation none none).2.2.2.2.2 2 (5 / 2) (by norm_num) (by norm_num)

/-- C12. Fault signal: `all_zero` is true iff both voltages are available and
at or below `ZERO_VOLTAGE` (0.02 V), whatever the wet and dry classification
is; so for every pair with both directions at or below 0.02 V `all_zero` is
true, and for every pair with both directions at or below 1.10 V and neither
at or below 0.02 V `all_dry` is true and `all_zero` is false. -/
theorem zero_signal (u_ab u_ba : Option ℚ) :
    ((get_water_state u_ab u_ba).all_zero = true
        ↔ ∃ a b : ℚ, u_ab = some a ∧ u_ba = some b ∧ a ≤ (2 : ℚ) / 100 ∧ b ≤ (2 : ℚ) / 100)
      ∧ (∀ a b : ℚ, a ≤ (2 : ℚ) / 100 → b ≤ (2 : ℚ) / 100 →
          (get_water_state (some a) (some b)).all_zero = true)
      ∧ (∀ a b : ℚ, a ≤ (110 : ℚ) / 100 → b ≤ (110 : ℚ) / 100 →
          ¬ a ≤ (2 : ℚ) / 100 → ¬ b ≤ (2 : ℚ) / 100 →
          (get_water_state (some a) (some b)).all_dry = true
            ∧ (get_water_state (some a) (some b)).all_zero = false) := by
  refine ⟨?_, ?_, ?_⟩
  · rw [get_water_state_all_zero, is_zero_voltage_iff, is_zero_voltage_iff]
    constructor
    · rintro ⟨⟨a, ha, ha2⟩, ⟨b, hb, hb2⟩⟩
      exact ⟨a, b, ha, hb, ha2, hb2⟩
    · rintro ⟨a, b, ha, hb, ha2, hb2⟩
      exact ⟨⟨a, ha, ha2⟩, ⟨b, hb, hb2⟩⟩
  · intro a b ha hb
    rw [get_water_state_near_zero a b ha hb]
  · intro a b ha hb hza hzb
    refine ⟨(get_water_state_all_dry _ _).2
      ⟨(classify_dry_iff a).2 ha, (classify_dry_iff b).2 hb⟩, ?_⟩
    cases hz : (get_water_state (some a) (some b)).all_zero with
    | false => rfl
    | true =>
      obtain ⟨v, hv, hv2⟩ := (is_zero_voltage_iff _).1 ((get_water_state_all_zero _ _).1 hz).1
      rw [Option.some.injEq] at hv
      rw [← hv] at hv2
      exact absurd hv2 hza

theorem zero_signal_witness :
    (get_water_state (some (1 / 100)) (some 0)).all_zero = true
      ∧ (get_water_state (some 1) (some (1 / 2))).all_dry = true
      ∧ (get_water_state (some 1) (some (1 / 2))).all_zero = false :=
  ⟨(zero_signal none none).2.1 (1 / 100) 0 (by norm_num) (by norm_num),
    (zero_signal none none).2.2 1 (1 / 2) (by norm_num) (by norm_num) (by norm_num)
      (by norm_num)⟩

/-- C13. Unavailable reading: `measure_voltage` returns NaN as soon as one of
its ten ADC reads fails; an unavailable voltage classifies as UNKNOWN and is
not near zero; so for every pair with at least one direction unavailable,
`all_dry` and `all_zero` are false and `any_water` is true iff the other
direction is available and at or above 1.90 V; with both directions
unavailable the three booleans are false. -/
theorem unavailable_reading (u : Option ℚ) :
    (∀ adc_read : Nat → Option Int, (∃ i ∈ List.range 10, adc_read i = none) →
        measure_voltage adc_read = none)
      ∧ classify_voltage none = water_state_t.WATER_UNKNOWN
      ∧ is_zero_voltage none = false
      ∧ (get_water_state none u).all_dry = false
      ∧ (get_water_state none u).all_zero = false
      ∧ ((get_water_state none u).any_water = true ↔ ∃ v : ℚ, u = some v ∧ (190 : ℚ) / 100 ≤ v)
      ∧ (get_water_state u none).all_dry = false
      ∧ (get_water_state u none).all_zero = false
      ∧ ((get_water_state u none).any_water = true ↔ ∃ v : ℚ, u = some v ∧ (190 : ℚ) / 100 ≤ v)
      ∧ get_water_state none none
          = { any_water := false, all_dry := false, all_zero := false } := by
  have hwet : classify_voltage u = water_state_t.WATER_WET
      ↔ ∃ v : ℚ, u = some v ∧ (190 : ℚ) / 100 ≤ v := by
    cases u with
    | none =>
      constructor
      · intro h
        exact absurd h (by decide)
      · rintro ⟨v, hv, _⟩
        exact absurd hv (by simp)
    | some w =>
      rw [classify_wet_iff]
      constructor
      · intro h
        exact ⟨w, rfl, h⟩
      · rintro ⟨v, hv, hle⟩
        rw [Option.some.injEq] at hv
        rw [hv]
        exact hle
  refine ⟨?_, rfl, rfl, ?_, ?_, ?_, ?_, ?_, ?_, rfl⟩
  · intro adc_read h
    unfold measure_voltage
    rw [adc_sum_none adc_read (List.range 10) 0 h]
    rfl
  · unfold get_water_state
    rfl
  · unfold get_water_state
    rfl
  · rw [get_water_state_any_water, ← hwet]
    constructor
    · rintro (h | h)
      · exact absurd h (by decide)
      · exact h
    · exact Or.inr
  · unfold get_water_state
    simp only [Bool.and_eq_false_imp]
    intro _
    rfl
  · unfold get_water_state
    simp only [Bool.and_eq_false_imp]
    intro _
    rfl
  · rw [get_water_state_any_water, ← hwet]
    constructor
    · rintro (h | h)
      · exact h
      · exact absurd h (by decide)
    · exact Or.inl

theorem unavailable_reading_witness :
    measure_voltage (fun i => if i = 7 then none else some 4095) = none :=
  (unavailable_reading none).1 (fun i => if i = 7 then none else some 4095)
    ⟨7, by decide, by decide⟩

/-! ## Invariants of the running program -/

/-- C14. Level query: in every state reachable from `pump_node_init` through
any number of `pump_step` calls, fault cycles included,
`pump_node_get_last_level_percent` returns 100 if `stored_is_full` is true and
0 if it is false. -/
theorem level_query (m : Machine) (h : Reachable m) :
    pump_node_get_last_level_percent m = (if m.s_pump.stored_is_full then 100 else 0)
      ∧ (pump_node_get_last_level_percent m = 0
          ∨ pump_node_get_last_level_percent m = 100) := by
  have key : m.s_pump.last_level_percent = if m.s_pump.stored_is_full then 100 else 0 := by
    induction h with
    | init m0 pins t_us m h0 hinit =>
      rw [pump_node_init_state m0 pins t_us m h0 hinit]
      rfl
    | step m c _ ih =>
      exact pump_step_percent m (now_ms c.t_us) c.any_water c.all_dry c.all_zero ih
  unfold pump_node_get_last_level_percent
  refine ⟨key, ?_⟩
  rw [key]
  cases m.s_pump.stored_is_full
  · left
    rfl
  · right
    rfl

theorem level_query_witness :
    pump_node_get_last_level_percent
        (run
          { s_pump :=
              { level_a_gpio := 32, level_b_gpio := 33, pump_gpio := 26, inited := true,
                pump_on := false, pump_start_ms := 0,
                last_water_ms := sub32 (now_ms 0) MIN_PAUSE_MS, stored_is_full := false,
                dry_streak := DRY_CONFIRM_CYCLES, wet_streak := 0, zero_streak := 0,
                last_level_percent := 0 }
            gpio_log := [(26, 0), (26, 1), (26, 0)] }
          [sample_cycle 1000000 true false false, sample_cycle 2000000 true false false])
      = 100 :=
  (level_query _
    (Reachable.step _ (sample_cycle 2000000 true false false)
      (Reachable.step _ (sample_cycle 1000000 true false false)
        (Reachable.init boot_machine sample_pins 0 _ rfl rfl)))).1

/-- C18. Streak clamping: in every state reachable from `pump_node_init`
through any number of `pump_step` calls, `wet_streak` is at most
`WET_CONFIRM_CYCLES` and `dry_streak` at most `DRY_CONFIRM_CYCLES`, so the
8-bit increments of the next step do not wrap: they are the exact
successors. -/
theorem streak_clamping (m : Machine) (h : Reachable m) :
    m.s_pump.wet_streak ≤ WET_CONFIRM_CYCLES
      ∧ m.s_pump.dry_streak ≤ DRY_CONFIRM_CYCLES
      ∧ inc8 m.s_pump.wet_streak = m.s_pump.wet_streak + 1
      ∧ inc8 m.s_pump.dry_streak = m.s_pump.dry_streak + 1 := by
  have key : m.s_pump.wet_streak ≤ WET_CONFIRM_CYCLES
      ∧ m.s_pump.dry_streak ≤ DRY_CONFIRM_CYCLES := by
    induction h with
    | init m0 pins t_us m h0 hinit =>
      rw [pump_node_init_state m0 pins t_us m h0 hinit]
      exact ⟨Nat.zero_le _, le_refl _⟩
    | step m c _ ih =>
      exact pump_step_streak_bounds m (now_ms c.t_us) c.any_water c.all_dry c.all_zero ih
  refine ⟨key.1, key.2, ?_, ?_⟩
  · have := key.1
    unfold inc8 U8
    unfold WET_CONFIRM_CYCLES at this
    omega
  · have := key.2
    unfold inc8 U8
    unfold DRY_CONFIRM_CYCLES at this
    omega

theorem streak_clamping_witness :
    (run
        { s_pump :=
            { level_a_gpio := 32, level_b_gpio := 33, pump_gpio := 26, inited := true,
              pump_on := false, pump_start_ms := 0,
              last_water_ms := sub32 (now_ms 0) MIN_PAUSE_MS, stored_is_full := false,
              dry_streak := DRY_CONFIRM_CYCLES, wet_streak := 0, zero_streak := 0,
              last_level_percent := 0 }
          gpio_log := [(26, 0), (26, 1), (26, 0)] }
        [sample_cycle 1000000 false true false,
          sample_cycle 2000000 false true false]).s_pump.dry_streak ≤ DRY_CONFIRM_CYCLES :=
  (streak_clamping _
    (Reachable.step _ (sample_cycle 2000000 false true false)
      (Reachable.step _ (sample_cycle 1000000 false true false)
        (Reachable.init boot_machine sample_pins 0 _ rfl rfl)))).2.1

/-! ## Initialisation -/

/-- C15. Idempotence of `pump_node_init`: on every state with `inited` true
and for every argument, a NULL pins pointer included, it returns `ESP_OK` and
leaves the whole state unchanged: no field of `s_pump` is reset and no pin is
written. -/
theorem init_idempotent (m : Machine) (pins : Option pump_node_pins_t)
    (gpio_ok unit_ok chan_a_ok chan_b_ok : Bool) (t_us : Nat)
    (h : m.s_pump.inited = true) :
    pump_node_init m pins gpio_ok unit_ok chan_a_ok chan_b_ok t_us = some (m, ESP_OK) := by
  unfold pump_node_init
  rw [if_pos h]

theorem init_idempotent_witness :
    pump_node_init (sample_machine true 5 7 true 0 2 1) none false false false false 9000000
      = some (sample_machine true 5 7 true 0 2 1, ESP_OK) :=
  init_idempotent (sample_machine true 5 7 true 0 2 1) none false false false false 9000000 rfl

/-- C16. First watering is not blocked: after a first successful
`pump_node_init` at any clock reading `t0`, also one below `MIN_PAUSE_MS`
where `last_water_ms` wraps modulo `2^32`, the first `pump_step` at a clock
reading `t1` from `t0` up to `2^32 - MIN_PAUSE_MS` ms later passes the rest
test and switches the pump on, whatever the three booleans of the reading
are. -/
theorem first_watering (m0 : Machine) (pins : pump_node_pins_t) (t0 t1 : Nat) (m : Machine)
    (aw ad az : Bool) (h0 : m0.s_pump.inited = false)
    (hinit : pump_node_init m0 (some pins) true true true true t0 = some (m, ESP_OK))
    (h01 : t0 / 1000 ≤ t1 / 1000) (hwin : t1 / 1000 - t0 / 1000 < U32 - MIN_PAUSE_MS) :
    m.s_pump.last_water_ms = sub32 (now_ms t0) MIN_PAUSE_MS
      ∧ MIN_PAUSE_MS ≤ sub32 (now_ms t1) m.s_pump.last_water_ms
      ∧ (pump_step m (now_ms t1) aw ad az).s_pump.pump_on = true
      ∧ (pump_step m (now_ms t1) aw ad az).s_pump.pump_start_ms = now_ms t1
      ∧ (pump_step m (now_ms t1) aw ad az).gpio_log = m.gpio_log ++ [(pins.pump_gpio, 1)] := by
  have hs := pump_node_init_state m0 pins t0 m h0 hinit
  have hlast : m.s_pump.last_water_ms = sub32 (now_ms t0) MIN_PAUSE_MS := by rw [hs]
  have hrest : MIN_PAUSE_MS ≤ sub32 (now_ms t1) m.s_pump.last_water_ms := by
    rw [hlast]
    exact sub32_init_rest t0 t1 h01 hwin
  have hgpio : m.s_pump.pump_gpio = pins.pump_gpio := by rw [hs]
  have hr := pump_step_ready m (now_ms t1) aw ad az (by rw [hs]) (by rw [hs]) (by rw [hs])
    (by rw [hs]) (by rw [hs]) hrest
  rw [hgpio] at hr
  exact ⟨hlast, hrest, hr.1, hr.2.1, hr.2.2.2.2.2⟩

theorem first_watering_witness :
    MIN_PAUSE_MS ≤ sub32 (now_ms 1005000) (sub32 (now_ms 5000) MIN_PAUSE_MS)
      ∧ (pump_step
          { s_pump :=
              { level_a_gpio := 32, level_b_gpio := 33, pump_gpio := 26, inited := true,
                pump_on := false, pump_start_ms := 0,
                last_water_ms := sub32 (now_ms 5000) MIN_PAUSE_MS, stored_is_full := false,
                dry_streak := DRY_CONFIRM_CYCLES, wet_streak := 0, zero_streak := 0,
                last_level_percent := 0 }
            gpio_log := [(26, 0), (26, 1), (26, 0)] }
          (now_ms 1005000) true false true).s_pump.pump_on = true :=
  have h := first_watering boot_machine sample_pins 5000 1005000 _ true false true rfl rfl
    (by decide) (by decide)
  ⟨h.2.1, h.2.2.1⟩

/-! ## Fault cycles and the run-time cap -/

/-- C17. Frame of a fault cycle: a step whose reading is all-zero and which
leaves `zero_streak` at or above `ZERO_CONFIRM_CYCLES` changes no field of the
controller other than `zero_streak`, `pump_on` and `last_water_ms`; in
particular `wet_streak`, `dry_streak`, `stored_is_full`, `last_level_percent`
and `pump_start_ms` are unchanged. If the pump was off, `pump_on` and
`last_water_ms` are unchanged too and no pin is written; if it was on,
`pump_on` becomes false and `last_water_ms` becomes `now`. -/
theorem fault_cycle_frame (m : Machine) (now : Nat) (aw ad : Bool)
    (h : ZERO_CONFIRM_CYCLES ≤ (pump_step m now aw ad true).s_pump.zero_streak) :
    (pump_step m now aw ad true).s_pump
        = { m.s_pump with
            zero_streak := (pump_step m now aw ad true).s_pump.zero_streak
            pump_on := false
            last_water_ms := if m.s_pump.pump_on then now else m.s_pump.last_water_ms }
      ∧ (pump_step m now aw ad true).s_pump.wet_streak = m.s_pump.wet_streak
      ∧ (pump_step m now aw ad true).s_pump.dry_streak = m.s_pump.dry_streak
      ∧ (pump_step m now aw ad true).s_pump.stored_is_full = m.s_pump.stored_is_full
      ∧ (pump_step m now aw ad true).s_pump.last_level_percent = m.s_pump.last_level_percent
      ∧ (pump_step m now aw ad true).s_pump.pump_start_ms = m.s_pump.pump_start_ms
      ∧ (m.s_pump.pump_on = false →
          (pump_step m now aw ad true).s_pump.pump_on = m.s_pump.pump_on
            ∧ (pump_step m now aw ad true).s_pump.last_water_ms = m.s_pump.last_water_ms
            ∧ (pump_step m now aw ad true).gpio_log = m.gpio_log)
      ∧ (m.s_pump.pump_on = true →
          (pump_step m now aw ad true).s_pump.pump_on = false
            ∧ (pump_step m now aw ad true).s_pump.last_water_ms = now) := by
  rw [pump_step_zero_streak] at h
  have hl := pump_step_fault_level m now aw ad true h
  have hstep := pump_step_fault m now aw ad true h
  refine ⟨?_, hl.2.1, hl.2.2.1, hl.1, hl.2.2.2.1, hl.2.2.2.2, ?_, ?_⟩
  · have he := update_zero_streak_eq m.s_pump true
    rw [hstep]
    by_cases hp : m.s_pump.pump_on = true
    · rw [if_pos hp, if_pos hp]
      show ({ update_zero_streak m.s_pump true with
          pump_on := false, last_water_ms := now } : pump_ctx_t) = _
      rw [he]
    · have hp2 : m.s_pump.pump_on = false := by simpa using hp
      rw [if_neg hp, if_neg hp]
      show update_zero_streak m.s_pump true = _
      rw [he]
      exact ctx_off_eq m.s_pump _ hp2
  · intro hp
    have hne : ¬ m.s_pump.pump_on = true := by simp [hp]
    rw [hstep, if_neg hne]
    have hf := update_zero_streak_frame m.s_pump true
    exact ⟨hf.1, hf.2.2.1, rfl⟩
  · intro hp
    rw [hstep, if_pos hp]
    exact ⟨rfl, rfl⟩

theorem fault_cycle_frame_witness :
    (pump_step (sample_machine true 500 0 true 1 2 2) 1500 false true true).s_pump.wet_streak
        = (sample_machine true 500 0 true 1 2 2).s_pump.wet_streak
      ∧ (pump_step (sample_machine true 500 0 true 1 2 2) 1500
          false true true).s_pump.last_water_ms = 1500 :=
  have h := fault_cycle_frame (sample_machine true 500 0 true 1 2 2) 1500 false true
    (by decide)
  ⟨h.2.1, (h.2.2.2.2.2.2.2 rfl).2⟩

/-- C19, as stated, fails: with the pump on, the level not full and the run
time exactly `MAX_PUMP_TIME_MS`, a step that is not a fault cycle leaves the
pump on. -/
theorem cap_boundary_counterexample :
    (sample_machine true 1000 0 false 3 0 0).s_pump.pump_on = true
      ∧ (pump_step (sample_machine true 1000 0 false 3 0 0) 4000
          false true false).s_pump.zero_streak < ZERO_CONFIRM_CYCLES
      ∧ MAX_PUMP_TIME_MS
          ≤ sub32 4000 (sample_machine true 1000 0 false 3 0 0).s_pump.pump_start_ms
      ∧ (pump_step (sample_machine true 1000 0 false 3 0 0) 4000
          false true false).s_pump.pump_on = true := by
  decide

/-- C19, amended. Cap of the run time: for every state with the pump on and
every step that is not a fault cycle, if the run time exceeds the cap
(`now - pump_start_ms > MAX_PUMP_TIME_MS`) the pump is off after the step and
`last_water_ms = now`, whatever the level is; at exactly `MAX_PUMP_TIME_MS`
the pump stays on unless the level is full. -/
theorem cap_boundary (m : Machine) (now : Nat) (aw ad az : Bool)
    (hp : m.s_pump.pump_on = true)
    (hnf : (pump_step m now aw ad az).s_pump.zero_streak < ZERO_CONFIRM_CYCLES) :
    (MAX_PUMP_TIME_MS < sub32 now m.s_pump.pump_start_ms →
        (pump_step m now aw ad az).s_pump.pump_on = false
          ∧ (pump_step m now aw ad az).s_pump.last_water_ms = now)
      ∧ (sub32 now m.s_pump.pump_start_ms = MAX_PUMP_TIME_MS →
          ((pump_step m now aw ad az).s_pump.pump_on = true
            ↔ (pump_step m now aw ad az).s_pump.stored_is_full = false)) := by
  rw [pump_step_zero_streak] at hnf
  have h := pump_step_ok_on m now aw ad az hnf hp
  constructor
  · intro hcap
    have hoff : (pump_step m now aw ad az).s_pump.pump_on = false := by
      by_contra hne
      have hon : (pump_step m now aw ad az).s_pump.pump_on = true := by simpa using hne
      have := (h.2.1.1 hon).1
      omega
    exact ⟨hoff, h.2.2.2 hoff⟩
  · intro heq
    rw [h.2.1]
    constructor
    · exact fun hh => hh.2
    · exact fun hh => ⟨le_of_eq heq, hh⟩

theorem cap_boundary_witness :
    (pump_step (sample_machine true 1000 0 false 3 0 0) 4001 false true false).s_pump.pump_on
        = false
      ∧ (pump_step (sample_machine true 1000 0 false 3 0 0) 4001
          false true false).s_pump.last_water_ms = 4001 :=
  (cap_boundary (sample_machine true 1000 0 false 3 0 0) 4001 false true false rfl
    (by decide)).1 (by decide)

/-! ## A disconnected probe -/

/-- C20. Disconnected probe at start-up: a voltage pair with both directions
at or below 0.02 V reads `all_zero`, `all_dry` and not `any_water`. From the
state set by a first successful `pump_node_init` at clock reading `t0`, three
consecutive cycles with such voltages, the first at start-up, that is from
`t0` up to `2^32 - MIN_PAUSE_MS` ms later, and the second at most
`MAX_PUMP_TIME_MS` after the first, leave the pump on after the first and the
second cycle, and off, with the fault confirmed and `last_water_ms` stamped,
only after the third. -/
theorem disconnected_probe (m0 : Machine) (pins : pump_node_pins_t) (t0 : Nat) (m : Machine)
    (h0 : m0.s_pump.inited = false)
    (hinit : pump_node_init m0 (some pins) true true true true t0 = some (m, ESP_OK))
    (t1 t2 t3 : Nat) (a1 b1 a2 b2 a3 b3 : ℚ)
    (ha1 : a1 ≤ (2 : ℚ) / 100) (hb1 : b1 ≤ (2 : ℚ) / 100)
    (ha2 : a2 ≤ (2 : ℚ) / 100) (hb2 : b2 ≤ (2 : ℚ) / 100)
    (ha3 : a3 ≤ (2 : ℚ) / 100) (hb3 : b3 ≤ (2 : ℚ) / 100)
    (h01 : t0 / 1000 ≤ t1 / 1000) (hwin : t1 / 1000 - t0 / 1000 < U32 - MIN_PAUSE_MS)
    (h12 : t1 / 1000 ≤ t2 / 1000) (hcap : t2 / 1000 - t1 / 1000 ≤ MAX_PUMP_TIME_MS) :
    get_water_state (some a1) (some b1)
        = { any_water := false, all_dry := true, all_zero := true }
      ∧ (pump_step_measured m t1 (some a1) (some b1)).s_pump.pump_on = true
      ∧ (pump_step_measured (pump_step_measured m t1 (some a1) (some b1))
          t2 (some a2) (some b2)).s_pump.pump_on = true
      ∧ (pump_step_measured
          (pump_step_measured (pump_step_measured m t1 (some a1) (some b1))
            t2 (some a2) (some b2))
          t3 (some a3) (some b3)).s_pump.pump_on = false
      ∧ (pump_step_measured
          (pump_step_measured (pump_step_measured m t1 (some a1) (some b1))
            t2 (some a2) (some b2))
          t3 (some a3) (some b3)).s_pump.zero_streak = ZERO_CONFIRM_CYCLES
      ∧ (pump_step_measured
          (pump_step_measured (pump_step_measured m t1 (some a1) (some b1))
            t2 (some a2) (some b2))
          t3 (some a3) (some b3)).s_pump.last_water_ms = now_ms t3 := by
  have hg1 := get_water_state_near_zero a1 b1 ha1 hb1
  have hg2 := get_water_state_near_zero a2 b2 ha2 hb2
  have hg3 := get_water_state_near_zero a3 b3 ha3 hb3
  refine ⟨hg1, ?_⟩
  unfold pump_step_measured
  simp only [hg1, hg2, hg3]
  have hs := pump_node_init_state m0 pins t0 m h0 hinit
  have hrest : MIN_PAUSE_MS ≤ sub32 (now_ms t1) m.s_pump.last_water_ms := by
    rw [hs]
    exact sub32_init_rest t0 t1 h01 hwin
  -- first cycle: counted as dry, the pump starts
  have hr1 := pump_step_ready m (now_ms t1) false true true (by rw [hs]) (by rw [hs])
    (by rw [hs]) (by rw [hs]) (by rw [hs]) hrest
  obtain ⟨hon1, hstart1, -, hz1, hd1, -⟩ := hr1
  simp only [if_true, Bool.false_eq_true, if_false] at hz1 hd1
  -- second cycle: still below the fault threshold, the pump keeps running
  have hz2 := pump_step_zero (pump_step m (now_ms t1) false true true) (now_ms t2)
    false true true
  rw [hz1] at hz2
  simp only [if_true, Nat.one_lt_ofNat, Nat.reduceAdd] at hz2
  have hnf2 : ¬ ZERO_CONFIRM_CYCLES
      ≤ (pump_step (pump_step m (now_ms t1) false true true) (now_ms t2)
          false true true).s_pump.zero_streak := by
    rw [hz2]
    decide
  have hL2 := (pump_step_level (pump_step m (now_ms t1) false true true) (now_ms t2)
    false true true).1
  rw [if_neg hnf2, hd1] at hL2
  have hfull2 : (pump_step (pump_step m (now_ms t1) false true true) (now_ms t2)
      false true true).s_pump.stored_is_full = false := by
    have hc : DRY_CONFIRM_CYCLES
        ≤ (if false = true then 0
          else if true = true then inc8 DRY_CONFIRM_CYCLES else 0) := by decide
    rw [hL2, if_pos hc]
  have hu2 : (update_zero_streak (pump_step m (now_ms t1) false true true).s_pump
      true).zero_streak < ZERO_CONFIRM_CYCLES := by
    rw [← pump_step_zero_streak (pump_step m (now_ms t1) false true true) (now_ms t2)
      false true true, hz2]
    decide
  have hok2 := pump_step_ok_on (pump_step m (now_ms t1) false true true) (now_ms t2)
    false true true hu2 hon1
  have hrun : sub32 (now_ms t2) (now_ms t1) ≤ MAX_PUMP_TIME_MS := by
    unfold now_ms
    rw [sub32_of_le (t2 / 1000) (t1 / 1000) h12
      (by unfold MAX_PUMP_TIME_MS at hcap; unfold U32; omega)]
    exact hcap
  have hon2 : (pump_step (pump_step m (now_ms t1) false true true) (now_ms t2)
      false true true).s_pump.pump_on = true := by
    rw [hok2.2.1, hstart1]
    exact ⟨hrun, hfull2⟩
  -- third cycle: the fault is confirmed, the pump is switched off
  have hz3 := pump_step_zero
    (pump_step (pump_step m (now_ms t1) false true true) (now_ms t2) false true true)
    (now_ms t3) false true true
  rw [hz2] at hz3
  simp only [if_true, Nat.reduceLT, Nat.reduceAdd] at hz3
  have hoff3 := (pump_step_fault_off
    (pump_step (pump_step m (now_ms t1) false true true) (now_ms t2) false true true)
    (now_ms t3) false true true (le_of_eq hz3.symm)).1
  exact ⟨hon1, hon2, hoff3, hz3,
    pump_step_turn_off _ (now_ms t3) false true true hon2 hoff3⟩

theorem disconnected_probe_witness :
    (pump_step_measured
        (pump_step_measured
          { s_pump :=
              { level_a_gpio := 32, level_b_gpio := 33, pump_gpio := 26, inited := true,
                pump_on := false, pump_start_ms := 0,
                last_water_ms := sub32 (now_ms 0) MIN_PAUSE_MS, stored_is_full := false,
                dry_streak := DRY_CONFIRM_CYCLES, wet_streak := 0, zero_streak := 0,
                last_level_percent := 0 }
            gpio_log := [(26, 0), (26, 1), (26, 0)] }
          1000000 (some 0) (some (1 / 100)))
        2000000 (some (1 / 100)) (some 0)).s_pump.pump_on = true :=
  (disconnected_probe boot_machine sample_pins 0 _ rfl rfl 1000000 2000000 3000000
    0 (1 / 100) (1 / 100) 0 0 0 (by norm_num) (by norm_num) (by norm_num) (by norm_num)
    (by norm_num) (by norm_num) (by decide) (by decide) (by decide) (by decide)).2.2.1

end PumpNode
